import Mathlib

/-!
Shallow embedding of the video production pipeline of the repository
(src/core_services/video_producer_service.py, src/platform_services/youtube_service.py,
src/orchestration/main_orchestrator.py).

External effects (gTTS synthesis, Stability AI calls, web search, the moviepy render,
the filesystem) are modelled by an explicit environment record describing how each
external call would respond, and by an event trace recording every side effect the
Python code performs (files created, API calls issued, the render).  The shared
threading.Event kill switch is modelled by a counter of is_set() reads: the
environment fixes the read index from which the flag is observed set, which is the
monotone behaviour of a flag that is set once during the run.  Durations are
rationals.  All paths are relative to the DATA_PATH / ASSETS_PATH roots of
src/config.py.
-/

/-- Python exceptions that the pipeline code can raise:
InterruptedException (src/utils/exceptions.py), ValueError (raised explicitly in
produce_complete_video), and any other exception from a library call. -/
inductive PyExc where
  | interrupted (message : String)
  | valueError (message : String)
  | otherError (message : String)
deriving DecidableEq

/-- str(e) on an exception: its message. -/
def PyExc.msg : PyExc → String
  | .interrupted m => m
  | .valueError m => m
  | .otherError m => m

/-- The script field of a content package: absent, a plain string, or a dict of
section name to text (insertion-ordered, as Python dicts are). -/
inductive ScriptData where
  | missing
  | str (s : String)
  | dict (kvs : List (String × String))
deriving DecidableEq

/-- Python truthiness test `if not script_data` in produce_complete_video:
None, the empty string and the empty dict are falsy. -/
def ScriptData.falsy : ScriptData → Bool
  | .missing => true
  | .str s => s == ""
  | .dict kvs => kvs.isEmpty

/-- `"\n".join(str(v) for v in script_data.values())` when the script is a dict,
`str(script_data)` otherwise (str(None) = "None"; that branch is unreachable
because the falsy check raises first). -/
def flattenScript : ScriptData → String
  | .missing => "None"
  | .str s => s
  | .dict kvs => String.intercalate "\n" (kvs.map Prod.snd)

/-- The content package dict handed to produce_complete_video. -/
structure ContentPackage where
  title : String
  description : String
  tags : List String
  script : ScriptData
  imagePrompts : List String
deriving DecidableEq

/-- One candidate URL scraped from the web image search page, together with how
the network and the PIL decoder would respond to it. -/
structure UrlSpec where
  url : String
  fetchOk : Bool
  statusCode : Nat
  decodes : Bool

/-- The environment of one produce_complete_video run: how every external call
responds, plus the kill switch timing.  killAfter = some k means the k-th
is_set() read of the run (0-based) and every later read observe the flag set;
none means the flag is never set during the run. -/
structure Env where
  killAfter : Option Nat
  timestamp : String
  gttsAvailable : Bool
  ttsFails : Bool
  audioDuration : ℚ
  hasApiKey : Bool
  genFails : Nat → Bool
  searchFails : Nat → Bool
  webUrls : Nat → List UrlSpec
  clipFails : String → Bool
  logoExists : Bool
  outroExists : Bool
  musicFiles : List String
  musicPick : Nat
  musicLen : String → ℚ
  mixFails : Bool
  renderFails : Bool

/-- A moviepy audio clip, kept symbolic so that gain, looping, trimming and
mixing stay visible: AudioFileClip, volumex, subclip, audio_loop, and
CompositeAudioClip (each part with its start offset). -/
inductive AudioTrack where
  | file (path : String) (dur : ℚ)
  | volumex (gain : ℚ) (a : AudioTrack)
  | subclipA (tStart tEnd : ℚ) (a : AudioTrack)
  | loopA (a : AudioTrack) (dur : ℚ)
  | compositeA (parts : List (ℚ × AudioTrack))

/-- One visual layer of a segment: a ColorClip of a given frame size and RGB
colour, or an (resized-and-centered) ImageClip of a file.  The resize arithmetic
of the source is purely visual and carries no timing information, so only the
image identity is recorded. -/
inductive Layer where
  | solid (size : Nat × Nat) (rgb : Nat × Nat × Nat)
  | image (path : String)
deriving DecidableEq

/-- One timed unit of the final visual timeline: its layers (bottom to top, as
CompositeVideoClip stacks them) and its duration. -/
structure VisualSeg where
  layers : List Layer
  dur : ℚ
deriving DecidableEq

/-- A moviepy video clip, modelled semantically: total duration, the attached
audio (none when silent), and the flattened ordered visual timeline. -/
structure VideoClip where
  duration : ℚ
  aud : Option AudioTrack
  track : List VisualSeg

/-- Side effects of a run, in order of occurrence. -/
inductive Event where
  | ttsCall (text : String)
  | audioFileCreated (path : String)
  | genApiCall (idx : Nat) (promptText : String) (aspect : String)
  | webSearchCall (idx : Nat) (query : String)
  | imageFileCreated (path : String)
  | warned (info : String)
  | rendered (v : VideoClip)
  | videoFileCreated (path : String)
  | fileDeleted (path : String)
  | uploadAttempt (path : String)

/-- Run state: the number of kill-switch reads performed so far and the event
trace. -/
structure PState where
  checks : Nat
  events : List Event

/-- Append one side effect to the trace. -/
def emit (s : PState) (e : Event) : PState :=
  { s with events := s.events ++ [e] }

/-- What a kill_switch.is_set() read at read index c observes: set exactly when
the environment set the flag at or before that read. -/
def killAt (env : Env) (c : Nat) : Bool :=
  match env.killAfter with
  | none => false
  | some k => decide (k ≤ c)

/-- One kill_switch.is_set() read: consult the environment at the current read
index and advance the index. -/
def isSet (env : Env) (s : PState) : Bool × PState :=
  (killAt env s.checks, { s with checks := s.checks + 1 })

/-- Path of the narration file written by generate_script_audio. -/
def narrAudioFile (ts : String) : String :=
  "generated_audio/script_audio_" ++ ts ++ ".mp3"

/-- Path of the i-th Stability AI image. -/
def aiImageFile (i : Nat) (ts : String) : String :=
  "generated_images/ai_image_" ++ toString i ++ "_" ++ ts ++ ".png"

/-- Path of the i-th web-searched image. -/
def webImageFile (i : Nat) (ts : String) : String :=
  "generated_images/web_image_" ++ toString i ++ "_" ++ ts ++ ".png"

/-- Path of the rendered output video. -/
def videoOutFile (ts : String) : String :=
  "generated_videos/video_" ++ ts ++ ".mp4"

/-- Intro logo asset path. -/
def introLogoFile : String := "assets/visual_identity/intro_logo.png"

/-- Outro card asset path. -/
def outroCardFile : String := "assets/visual_identity/outro_card.png"

/-- Is one character prefix-compatible: charsPre p c decides whether p is a
prefix of c.  Implemented structurally so that concrete runs reduce in the
kernel. -/
def charsPre : List Char → List Char → Bool
  | [], _ => true
  | _ :: _, [] => false
  | p :: ps, c :: cs => p == c && charsPre ps cs

/-- Split a character list at newline characters (Python str.split with an
explicit separator: trailing separators yield empty fields). -/
def splitNl : List Char → List Char → List (List Char)
  | [], acc => [acc.reverse]
  | c :: cs, acc => if c == '\n' then acc.reverse :: splitNl cs [] else splitNl cs (c :: acc)

/-- The whitespace characters Python str.strip removes. -/
def isPyWS (c : Char) : Bool :=
  c == ' ' || c == '\t' || c == '\n' || c == '\r' || c == '\x0b' || c == '\x0c'

/-- Python str.strip(). -/
def pyStrip (t : String) : String :=
  (((t.data.dropWhile isPyWS).reverse.dropWhile isPyWS).reverse).asString

/-- Python str.startswith(pre). -/
def pyStartsWith (t pre : String) : Bool := charsPre pre.data t.data

/-- Python str.endswith(suf). -/
def pyEndsWith (t suf : String) : Bool := charsPre suf.data.reverse t.data.reverse

/-- Python str.lower() (ASCII, which is all the extensions need). -/
def pyLower (t : String) : String := (t.data.map Char.toLower).asString

/-- Python t.split of a string on newlines. -/
def pySplitLines (t : String) : List String := (splitNl t.data []).map List.asString

/-- _clean_script_text on a string: split on newlines, keep lines that are
non-blank after stripping and do not start with a structural marker (the
startswith tests run on the unstripped line, as in the source), strip them,
and join with single spaces. -/
def cleanScriptText (t : String) : String :=
  String.intercalate " " ((pySplitLines t).filterMap (fun line =>
    if pyStrip line != "" && !(pyStartsWith line "#") && !(pyStartsWith line "**")
    then some (pyStrip line) else none))

/-- generate_script_audio: kill check, clean the script, return None when the
cleaned text is empty or gTTS is unavailable or synthesis throws (the inner
try/except turns the throw into None); otherwise write the mp3 and return its
path. -/
def generateScriptAudioFn (env : Env) (scriptText : String) (_voiceType : String)
    (s : PState) : Except PyExc (Option String) × PState :=
  let (b, s) := isSet env s
  if b then (.error (.interrupted "Audio generation cancelled."), s)
  else
    let cleaned := cleanScriptText scriptText
    if cleaned == "" then (.ok none, s)
    else
      let path := narrAudioFile env.timestamp
      if env.gttsAvailable then
        let s := emit s (.ttsCall cleaned)
        if env.ttsFails then (.ok none, s)
        else (.ok (some path), emit s (.audioFileCreated path))
      else (.ok none, s)

/-- The fixed stylistic embellishment _generate_images_with_stability wraps
around each prompt. -/
def embellishPrompt (p : String) : String :=
  "concept art for a youtube video, " ++ p ++ ", cinematic, ultra realistic, 8k"

/-- File-extension allowlist of _search_and_download_images. -/
def hasImageExt (u : String) : Bool :=
  pyEndsWith u ".jpg" || pyEndsWith u ".png" || pyEndsWith u ".jpeg"

/-- The inner url loop of _search_and_download_images: first url passing the
extension allowlist whose fetch returns status 200 and decodes is saved and the
loop breaks; every failure continues to the next url. -/
def tryUrls (env : Env) (i : Nat) : List UrlSpec → PState → Option String × PState
  | [], s => (none, s)
  | u :: rest, s =>
    if hasImageExt u.url then
      if u.fetchOk && u.statusCode == 200 then
        if u.decodes then
          let path := webImageFile i env.timestamp
          (some path, emit s (.imageFileCreated path))
        else tryUrls env i rest s
      else tryUrls env i rest s
    else tryUrls env i rest s

/-- The per-query loop of _search_and_download_images: kill check (a hard
abort), then a search request whose failure is caught per query and skipped. -/
def searchLoop (env : Env) : List String → Nat → List String → PState →
    Except PyExc (List String) × PState
  | [], _, acc, s => (.ok acc, s)
  | q :: rest, i, acc, s =>
    let (b, s) := isSet env s
    if b then (.error (.interrupted "Image download cancelled."), s)
    else
      let s := emit s (.webSearchCall i q)
      if env.searchFails i then searchLoop env rest (i + 1) acc s
      else
        match tryUrls env i (env.webUrls i) s with
        | (none, s) => searchLoop env rest (i + 1) acc s
        | (some p, s) => searchLoop env rest (i + 1) (acc ++ [p]) s

/-- _search_and_download_images. -/
def searchAndDownloadImages (env : Env) (queries : List String) (s : PState) :
    Except PyExc (List String) × PState :=
  searchLoop env queries 0 [] s

/-- The per-prompt loop of _generate_images_with_stability: kill check (a hard
abort), one API call per prompt with the embellished prompt and the aspect
setting; a non-success response is caught, warned about and skipped. -/
def genLoop (env : Env) (aspect : String) : List String → Nat → List String → PState →
    Except PyExc (List String) × PState
  | [], _, acc, s => (.ok acc, s)
  | p :: rest, i, acc, s =>
    let (b, s) := isSet env s
    if b then (.error (.interrupted "AI Image generation cancelled."), s)
    else
      let s := emit s (.genApiCall i (embellishPrompt p) aspect)
      if env.genFails i then genLoop env aspect rest (i + 1) acc (emit s (.warned p))
      else
        let path := aiImageFile i env.timestamp
        genLoop env aspect rest (i + 1) (acc ++ [path]) (emit s (.imageFileCreated path))

/-- _generate_images_with_stability: with no (truthy) API key it silently falls
back to web search; otherwise it runs the generation loop. -/
def generateImagesWithStability (env : Env) (prompts : List String) (aspect : String)
    (s : PState) : Except PyExc (List String) × PState :=
  if !env.hasApiKey then searchAndDownloadImages env prompts s
  else genLoop env aspect prompts 0 [] s

/-- The brand background colour (13, 17, 23). -/
def brandColor : Nat × Nat × Nat := (13, 17, 23)

/-- _create_intro_clip: a brand-colour ColorClip, with the logo composited on
top when the asset exists.  Duration is the given duration either way. -/
def createIntroClip (env : Env) (duration : ℚ) (res : Nat × Nat) : VideoClip :=
  if env.logoExists then
    ⟨duration, none, [⟨[.solid res brandColor, .image introLogoFile], duration⟩]⟩
  else ⟨duration, none, [⟨[.solid res brandColor], duration⟩]⟩

/-- _create_outro_clip: the outro card image when present, else a brand-colour
ColorClip. -/
def createOutroClip (env : Env) (duration : ℚ) (res : Nat × Nat) : VideoClip :=
  if env.outroExists then ⟨duration, none, [⟨[.image outroCardFile], duration⟩]⟩
  else ⟨duration, none, [⟨[.solid res brandColor], duration⟩]⟩

/-- The single solid content clip used when no image resolved:
ColorClip(size=resolution, color=(0,0,0), duration=audio_duration). -/
def solidContentClip (d : ℚ) (res : Nat × Nat) : VideoClip :=
  ⟨d, none, [⟨[.solid res (0, 0, 0)], d⟩]⟩

/-- One per-image content clip: the image resized/centered into the target
frame, shown for the fixed per-segment duration. -/
def imageContentClip (p : String) (segDur : ℚ) : VideoClip :=
  ⟨segDur, none, [⟨[.image p], segDur⟩]⟩

/-- The per-image loop of _create_content_clips_from_images: kill check (hard
abort); an image that fails to decode is warned about and skipped. -/
def clipLoop (env : Env) (segDur : ℚ) : List String → PState → List VideoClip →
    Except PyExc (List VideoClip) × PState
  | [], s, acc => (.ok acc, s)
  | p :: rest, s, acc =>
    let (b, s) := isSet env s
    if b then (.error (.interrupted "Video clip assembly cancelled."), s)
    else if env.clipFails p then clipLoop env segDur rest (emit s (.warned p)) acc
    else clipLoop env segDur rest s (acc ++ [imageContentClip p segDur])

/-- _create_content_clips_from_images: no images gives exactly one solid clip
spanning the whole narration; otherwise each image gets
audio_duration / len(images), computed once before the loop. -/
def createContentClipsFromImages (env : Env) (images : List String) (audioDur : ℚ)
    (res : Nat × Nat) (s : PState) : Except PyExc (List VideoClip) × PState :=
  if images.isEmpty then (.ok [solidContentClip audioDur res], s)
  else clipLoop env (audioDur / images.length) images s []

/-- The audio of a concatenation: each component clip that has audio contributes
it at the offset where that clip starts. -/
def concatAudioParts : List VideoClip → ℚ → List (ℚ × AudioTrack)
  | [], _ => []
  | c :: rest, off =>
    (match c.aud with | some a => [(off, a)] | none => []) ++
      concatAudioParts rest (off + c.duration)

/-- concatenate_videoclips: fails on an empty list (as moviepy does), otherwise
sums durations, appends the visual timelines in order, and composes the
component audio tracks at their start offsets. -/
def concatenateVideoclips (clips : List VideoClip) : Except PyExc VideoClip :=
  if clips.isEmpty then .error (.otherError "cannot concatenate an empty list of clips")
  else
    .ok ⟨(clips.map VideoClip.duration).sum,
         (match concatAudioParts clips 0 with
          | [] => none
          | ps => some (.compositeA ps)),
         (clips.map VideoClip.track).flatten⟩

/-- set_audio: replace the attached audio, visuals and duration unchanged. -/
def setAudio (v : VideoClip) (a : AudioTrack) : VideoClip :=
  { v with aud := some a }

/-- The music pool _add_background_music lists: files of MUSIC_ASSETS_PATH whose
lowercased name ends in .mp3 or .wav, joined to the assets directory. -/
def musicCandidates (env : Env) : List String :=
  (env.musicFiles.filter (fun f =>
    pyEndsWith (pyLower f) ".mp3" || pyEndsWith (pyLower f) ".wav")).map
    (fun f => "music_assets/" ++ f)

/-- The chosen track after gain and length adjustment: volumex(0.1), then
subclip(0, videoDur) when longer than the video, else audio_loop to videoDur. -/
def adjustedMusic (env : Env) (videoDur : ℚ) (path : String) : AudioTrack :=
  let m : AudioTrack := .volumex (1 / 10) (.file path (env.musicLen path))
  if env.musicLen path > videoDur then .subclipA 0 videoDur m else .loopA m videoDur

/-- _add_background_music: any exception (modelled by mixFails, and by the
CompositeAudioClip of a clip without audio) is caught and the video is returned
unchanged; an empty pool returns the video unchanged; otherwise one pool track
(random.choice, modelled by the musicPick index) is adjusted and composed under
the untouched existing audio. -/
def addBackgroundMusic (env : Env) (v : VideoClip) : VideoClip :=
  if env.mixFails then v
  else
    match musicCandidates env with
    | [] => v
    | c :: cs =>
      let path := (c :: cs).getD (env.musicPick % (c :: cs).length) c
      match v.aud with
      | none => v
      | some a =>
        { v with aud := some (.compositeA [(0, a), (0, adjustedMusic env v.duration path)]) }

/-- The target resolution produce_complete_video picks from the aspect
setting: portrait for 9:16, else landscape. -/
def resOf (aspect : String) : Nat × Nat :=
  if aspect == "9:16" then (1080, 1920) else (1920, 1080)

/-- The success dict of produce_complete_video: the rendered filename and the
content package passed through. -/
structure ProducedVideo where
  filename : String
  content : ContentPackage
deriving DecidableEq

/-- The try-block body of produce_complete_video, before its exception
handlers: the staged pipeline with a kill checkpoint at every stage boundary. -/
def produceBody (env : Env) (content : ContentPackage) (voiceType aspect imageSource : String)
    (s : PState) : Except PyExc ProducedVideo × PState :=
  let (b, s) := isSet env s
  if b then (.error (.interrupted "Operation cancelled before start."), s)
  else
    let res : Nat × Nat := resOf aspect
    if content.script.falsy then
      (.error (.valueError "Critical Error: Script is empty or missing."), s)
    else
      let scriptForAudio := flattenScript content.script
      match generateScriptAudioFn env scriptForAudio voiceType s with
      | (.error e, s) => (.error e, s)
      | (.ok none, s) => (.error (.valueError "Audio generation failed."), s)
      | (.ok (some audioFile), s) =>
        let (b, s) := isSet env s
        if b then (.error (.interrupted "Operation cancelled after audio generation."), s)
        else
          let d := env.audioDuration
          match (if imageSource == "ai_generated"
                 then generateImagesWithStability env content.imagePrompts aspect s
                 else searchAndDownloadImages env content.imagePrompts s) with
          | (.error e, s) => (.error e, s)
          | (.ok imagePaths, s) =>
            let (b, s) := isSet env s
            if b then (.error (.interrupted "Operation cancelled after image generation."), s)
            else
              let intro := createIntroClip env 3 res
              match createContentClipsFromImages env imagePaths d res s with
              | (.error e, s) => (.error e, s)
              | (.ok contentClips, s) =>
                let outro := createOutroClip env 5 res
                match concatenateVideoclips contentClips with
                | .error e => (.error e, s)
                | .ok contentCat =>
                  let finalContentVideo := setAudio contentCat (.file audioFile d)
                  match concatenateVideoclips [intro, finalContentVideo, outro] with
                  | .error e => (.error e, s)
                  | .ok finalVideo =>
                    let finalWithMusic := addBackgroundMusic env finalVideo
                    let outName := videoOutFile env.timestamp
                    let (b, s) := isSet env s
                    if b then
                      (.error (.interrupted "Operation cancelled before final render."), s)
                    else
                      let s := emit s (.rendered finalWithMusic)
                      if env.renderFails then (.error (.otherError "render failed"), s)
                      else (.ok ⟨outName, content⟩, emit s (.videoFileCreated outName))

/-- produce_complete_video: the body wrapped in the two exception handlers of
the source.  InterruptedException is re-raised; every other exception is caught
by the catch-all and converted to the return value None. -/
def produceCompleteVideo (env : Env) (content : ContentPackage)
    (voiceType aspect imageSource : String) (s : PState) :
    Except PyExc (Option ProducedVideo) × PState :=
  match produceBody env content voiceType aspect imageSource s with
  | (.error (.interrupted m), s) => (.error (.interrupted m), s)
  | (.error _, s) => (.ok none, s)
  | (.ok v, s) => (.ok (some v), s)

mutual

/-- Spans at which a given audio file plays inside an audio tree: (absolute
start offset, clip duration) for every file leaf whose path is the target.
Used to state where the narration is attached in the final mix. -/
def AudioTrack.spansOf (target : String) : AudioTrack → ℚ → List (ℚ × ℚ)
  | .file p d, off => if p = target then [(off, d)] else []
  | .volumex _ a, off => a.spansOf target off
  | .subclipA _ _ a, off => a.spansOf target off
  | .loopA a _, off => a.spansOf target off
  | .compositeA parts, off => spansOfParts target parts off

/-- Helper of AudioTrack.spansOf for composite parts, each shifted by its own
start offset. -/
def spansOfParts (target : String) : List (ℚ × AudioTrack) → ℚ → List (ℚ × ℚ)
  | [], _ => []
  | (o, a) :: rest, off => a.spansOf target (off + o) ++ spansOfParts target rest off

end

/-- Starting state of a run: no kill-switch reads yet, no side effects yet.
The orchestrator clears the kill switch right before each run, so each run
starts at read index 0. -/
def s0 : PState := ⟨0, []⟩

/-- Is this event a Stability AI generation API call? -/
def Event.isGenApiCall : Event → Bool
  | .genApiCall .. => true
  | _ => false

/-- Is this event a web image search request? -/
def Event.isWebSearchCall : Event → Bool
  | .webSearchCall .. => true
  | _ => false

/-- Is this event any image-sourcing call (generation or web search)? -/
def Event.isImageSourcing (e : Event) : Bool :=
  e.isGenApiCall || e.isWebSearchCall

/-- Is this event the creation of a per-image temporary file? -/
def Event.isImageFileCreated : Event → Bool
  | .imageFileCreated _ => true
  | _ => false

/-- Is this event the creation of the narration temporary file? -/
def Event.isAudioFileCreated : Event → Bool
  | .audioFileCreated _ => true
  | _ => false

/-- Is this event a render of a final video? -/
def Event.isRendered : Event → Bool
  | .rendered _ => true
  | _ => false

/-- Is this event the creation of the rendered output file? -/
def Event.isVideoFileCreated : Event → Bool
  | .videoFileCreated _ => true
  | _ => false

/-- Is this event the deletion of a local file? -/
def Event.isFileDeleted : Event → Bool
  | .fileDeleted _ => true
  | _ => false

/-- The video argument of a render event, if any. -/
def getRenderedEvent : Event → Option VideoClip
  | .rendered v => some v
  | _ => none

/-- The final videos handed to write_videofile during a run, in order. -/
def renderedVideos (s : PState) : List VideoClip :=
  s.events.filterMap getRenderedEvent

/-- The environment of one YouTubeService.create_and_upload_video call: the
video-producer environment, what the content generator returns, and whether the
YouTube API client authenticated. -/
structure OrchEnv where
  env : Env
  contentPackage : Option ContentPackage
  apiReady : Bool
  uploadFails : Bool

/-- The dict returned by create_and_upload_video:
either a success with the local path or a failure with a message. -/
inductive UploadOutcome where
  | succeeded (path : String)
  | failedMsg (message : String)
deriving DecidableEq

/-- YouTubeService.create_and_upload_video: generate content, produce the
video, optionally upload.  Its except-Exception handler catches every exception
raised inside, including the InterruptedException re-raised by
produce_complete_video, and turns it into a failure dict carrying str(e).  An
exception during the upload itself also escapes upload_video: evaluating its
except-HttpError clause raises NameError because HttpError is never imported in
youtube_service.py, so every upload failure surfaces here as that NameError and
becomes a failure dict even though the video was produced. -/
def createAndUploadVideo (oe : OrchEnv) (voiceType : String) (upload : Bool)
    (imageSource : String) (s : PState) : UploadOutcome × PState :=
  match oe.contentPackage with
  | none => (.failedMsg "Failed to generate content package.", s)
  | some cp =>
    match produceCompleteVideo oe.env cp voiceType "16:9" imageSource s with
    | (.error e, s) => (.failedMsg e.msg, s)
    | (.ok none, s) => (.failedMsg "Video production failed or was cancelled.", s)
    | (.ok (some vi), s) =>
      if upload then
        if oe.apiReady then
          let s := emit s (.uploadAttempt vi.filename)
          if oe.uploadFails then (.failedMsg "name HttpError is not defined", s)
          else (.succeeded vi.filename, s)
        else (.succeeded vi.filename, s)
      else (.succeeded vi.filename, s)

/-- The dict MainOrchestrator.generate_single_youtube_video hands to the UI or
worker: success with path, the dedicated cancelled outcome built by its
except-InterruptedException handler, or a generic failure with message. -/
inductive ApiResult where
  | ok (path : String)
  | cancelled
  | failed (message : String)
deriving DecidableEq

/-- MainOrchestrator.generate_single_youtube_video: reset the kill switch (the
run starts at s0), call createAndUploadVideo, and map its dict through.  Its
except-InterruptedException handler would return the distinct cancelled
outcome, but createAndUploadVideo never raises: every exception, cancellation
included, was already converted to a failure dict inside it, so only the first
match arms below are reachable. -/
def generateSingleYoutubeVideo (oe : OrchEnv) (upload : Bool) (imageSource : String) :
    ApiResult × PState :=
  match createAndUploadVideo oe "female_voice" upload imageSource s0 with
  | (.succeeded p, s) => (.ok p, s)
  | (.failedMsg m, s) => (.failed m, s)

/-- The events the Stability AI generation loop appends for a prompt list,
starting at prompt index i: one API call per prompt in input order, followed by
either the saved image file or the logged warning. -/
def genTraceFrom (env : Env) (aspect : String) : List String → Nat → List Event
  | [], _ => []
  | p :: rest, i =>
    .genApiCall i (embellishPrompt p) aspect ::
      ((if env.genFails i then [.warned p]
        else [.imageFileCreated (aiImageFile i env.timestamp)]) ++
       genTraceFrom env aspect rest (i + 1))

/-- The image paths the generation loop returns: one per successful prompt, in
input order, failed prompts skipped. -/
def genPathsFrom (env : Env) : List String → Nat → List String
  | [], _ => []
  | _ :: rest, i =>
    (if env.genFails i then [] else [aiImageFile i env.timestamp]) ++ genPathsFrom env rest (i + 1)

/-- Number of file-deletion side effects in the trace so far. -/
def delCount (s : PState) : Nat := s.events.countP Event.isFileDeleted

/-- Whether the url loop of _search_and_download_images finds a downloadable,
decodable image among the scraped candidates (the pure outcome of tryUrls). -/
def tryUrlsFound (env : Env) (i : Nat) : List UrlSpec → Bool
  | [] => false
  | u :: rest =>
    if hasImageExt u.url then
      if u.fetchOk && u.statusCode == 200 then
        if u.decodes then true else tryUrlsFound env i rest
      else tryUrlsFound env i rest
    else tryUrlsFound env i rest

/-- The image paths the web search loop returns: one per query whose search
succeeds and whose url scan finds an image, in input order. -/
def searchPathsFrom (env : Env) : List String → Nat → List String
  | [], _ => []
  | _ :: rest, i =>
    (if !env.searchFails i && tryUrlsFound env i (env.webUrls i)
     then [webImageFile i env.timestamp] else []) ++ searchPathsFrom env rest (i + 1)

/-- The events the web search loop appends: one search request per query in
input order, followed by the saved file when one was found. -/
def searchTraceFrom (env : Env) : List String → Nat → List Event
  | [], _ => []
  | q :: rest, i =>
    .webSearchCall i q ::
      ((if !env.searchFails i && tryUrlsFound env i (env.webUrls i)
        then [.imageFileCreated (webImageFile i env.timestamp)] else []) ++
       searchTraceFrom env rest (i + 1))

/-- The image paths the image-resolution stage of produce_complete_video
returns, for either sourcing mode: generated mode uses the Stability loop when
a key is configured and silently falls back to web search otherwise; any other
mode uses web search. -/
def imagePathsOf (env : Env) (prompts : List String) (imageSource : String) : List String :=
  if imageSource == "ai_generated" then
    if env.hasApiKey then genPathsFrom env prompts 0 else searchPathsFrom env prompts 0
  else searchPathsFrom env prompts 0

/-- The events the image-resolution stage appends, for either sourcing mode. -/
def imageTraceOf (env : Env) (aspect : String) (prompts : List String)
    (imageSource : String) : List Event :=
  if imageSource == "ai_generated" then
    if env.hasApiKey then genTraceFrom env aspect prompts 0
    else searchTraceFrom env prompts 0
  else searchTraceFrom env prompts 0

/-- The clips the assembly loop produces: one per decodable image, in order;
undecodable images are skipped. -/
def clipsOf (env : Env) (segDur : ℚ) : List String → List VideoClip
  | [] => []
  | p :: rest =>
    (if env.clipFails p then [] else [imageContentClip p segDur]) ++ clipsOf env segDur rest

/-- The events the assembly loop appends: one warning per undecodable image. -/
def clipTraceOf (env : Env) : List String → List Event
  | [] => []
  | p :: rest => (if env.clipFails p then [.warned p] else []) ++ clipTraceOf env rest

/-- A predicate on events that is false on every event a stage can emit before
the final render (narration, sourcing calls, saved files, warnings).  Used to
state that a cancelled run leaves no later-stage side effects. -/
def IgnoresStageEvents (P : Event → Bool) : Prop :=
  (∀ t, P (.ttsCall t) = false) ∧ (∀ p, P (.audioFileCreated p) = false) ∧
    (∀ i t a, P (.genApiCall i t a) = false) ∧ (∀ i q, P (.webSearchCall i q) = false) ∧
    (∀ p, P (.imageFileCreated p) = false) ∧ (∀ w, P (.warned w) = false)

/-- Number of trace events satisfying a predicate. -/
def countOf (P : Event → Bool) (s : PState) : Nat := s.events.countP P

/-- An all-succeeding environment used by concrete witnesses: the flag is never
set, gTTS and the Stability key are available, every external call succeeds,
the music pool is empty. -/
def envA : Env := {
  killAfter := none
  timestamp := "20240101_000000"
  gttsAvailable := true
  ttsFails := false
  audioDuration := 6
  hasApiKey := true
  genFails := fun _ => false
  searchFails := fun _ => false
  webUrls := fun _ => []
  clipFails := fun _ => false
  logoExists := false
  outroExists := false
  musicFiles := []
  musicPick := 0
  musicLen := fun _ => 0
  mixFails := false
  renderFails := false }

/-- A concrete well-formed content package. -/
def contentA : ContentPackage := {
  title := "t"
  description := "d"
  tags := []
  script := .str "Hello world."
  imagePrompts := ["a red cube"] }

/-- A content package whose script is the empty string (falsy). -/
def contentEmptyScript : ContentPackage := { contentA with script := .str "" }

/-- A content package whose script dict is non-empty (truthy, so it passes the
validation check) but flattens to the empty string. -/
def contentDictEmpty : ContentPackage := { contentA with script := .dict [("intro", "")] }

/-- envA with the kill switch set at the third is_set read, which is the
checkpoint right after narration synthesis. -/
def envCancelAfterAudio : Env := { envA with killAfter := some 2 }

/-- envA without a configured Stability AI key. -/
def envNoKey : Env := { envA with hasApiKey := false }

/-- An orchestration environment whose production run observes the kill switch
right after narration synthesis. -/
def oeCancelled : OrchEnv := {
  env := envCancelAfterAudio
  contentPackage := some contentA
  apiReady := true
  uploadFails := false }

/-- C10: produce_complete_video either raises InterruptedException, or returns
None, or returns a success dict; no other exception ever escapes, because the
catch-all handler converts every non-cancellation error to the return value
None. -/
theorem c10_result_trichotomy (env : Env) (content : ContentPackage)
    (voiceType aspect imageSource : String) :
    (∃ m, (produceCompleteVideo env content voiceType aspect imageSource s0).1 =
        .error (.interrupted m)) ∨
      (produceCompleteVideo env content voiceType aspect imageSource s0).1 = .ok none ∨
      (∃ d, (produceCompleteVideo env content voiceType aspect imageSource s0).1 =
        .ok (some d)) := by
  unfold produceCompleteVideo
  rcases h : produceBody env content voiceType aspect imageSource s0 with ⟨r, s⟩
  rcases r with e | v
  · rcases e with m | m | m
    · exact Or.inl ⟨m, rfl⟩
    · exact Or.inr (Or.inl rfl)
    · exact Or.inr (Or.inl rfl)
  · exact Or.inr (Or.inr ⟨v, rfl⟩)

/-- C4 counterexample: a script dict with one empty section flattens to the
empty string, yet produce_complete_video does not fail with the script
ValidationError — the truthiness check passes and the run instead raises the
audio-generation ValueError, and the caller receives the generic failure value
None, indistinguishable from any other failure. -/
theorem c4_flatten_empty_not_validation_error :
    flattenScript contentDictEmpty.script = "" ∧
      (produceBody envA contentDictEmpty "female_voice" "16:9" "ai_generated" s0).1 =
        .error (.valueError "Audio generation failed.") ∧
      (produceCompleteVideo envA contentDictEmpty "female_voice" "16:9" "ai_generated" s0).1 =
        .ok none ∧
      (produceCompleteVideo envA contentEmptyScript "female_voice" "16:9" "ai_generated" s0).1 =
        .ok none :=
  ⟨rfl, rfl, rfl, rfl⟩

/-- C4 amended: for every content package whose script field is falsy (missing,
empty string or empty dict), the body of produce_complete_video raises
ValueError("Critical Error: Script is empty or missing.") immediately — before
any narration, image or render side effect (the trace stays empty) and without
any retry — but the catch-all handler surfaces it to the caller as the generic
failure value None, not as a distinguishable validation error. -/
theorem c4_falsy_script_fails_fast (env : Env) (content : ContentPackage)
    (voiceType aspect imageSource : String)
    (hk : env.killAfter = none) (hfal : content.script.falsy = true) :
    produceBody env content voiceType aspect imageSource s0 =
        (.error (.valueError "Critical Error: Script is empty or missing."), ⟨1, []⟩) ∧
      produceCompleteVideo env content voiceType aspect imageSource s0 =
        (.ok none, ⟨1, []⟩) := by
  have hbody : produceBody env content voiceType aspect imageSource s0 =
      (.error (.valueError "Critical Error: Script is empty or missing."), ⟨1, []⟩) := by
    simp [produceBody, isSet, killAt, s0, hk, hfal]
  exact ⟨hbody, by simp [produceCompleteVideo, hbody]⟩

/-- Witness for c4_falsy_script_fails_fast at a concrete falsy input. -/
theorem c4_falsy_script_fails_fast_witness :
    (envA.killAfter = none ∧ contentEmptyScript.script.falsy = true) ∧
      (produceBody envA contentEmptyScript "female_voice" "16:9" "ai_generated" s0 =
          (.error (.valueError "Critical Error: Script is empty or missing."), ⟨1, []⟩) ∧
        produceCompleteVideo envA contentEmptyScript "female_voice" "16:9" "ai_generated" s0 =
          (.ok none, ⟨1, []⟩)) :=
  ⟨⟨rfl, rfl⟩,
    c4_falsy_script_fails_fast envA contentEmptyScript "female_voice" "16:9" "ai_generated"
      rfl rfl⟩

/-- C3: for every input on which narration synthesis yields no audio — the
gTTS engine unavailable, the synthesis call throwing (the inner except of
generate_script_audio turns it into None), or the script cleaning to the empty
string — the body raises the fatal ValueError("Audio generation failed."), the
caller receives the failure value None, and the run performs no image sourcing,
no timeline assembly and no render: the trace holds no narration file, no
sourcing call, no image file, no render and no output file. -/
theorem c3_null_audio_is_fatal (env : Env) (content : ContentPackage)
    (voiceType aspect imageSource : String)
    (hk : env.killAfter = none) (hfal : content.script.falsy = false)
    (hnull : env.gttsAvailable = false ∨ env.ttsFails = true ∨
      cleanScriptText (flattenScript content.script) = "") :
    (produceBody env content voiceType aspect imageSource s0).1 =
        .error (.valueError "Audio generation failed.") ∧
      (produceCompleteVideo env content voiceType aspect imageSource s0).1 = .ok none ∧
      countOf Event.isAudioFileCreated
        (produceCompleteVideo env content voiceType aspect imageSource s0).2 = 0 ∧
      countOf Event.isImageSourcing
        (produceCompleteVideo env content voiceType aspect imageSource s0).2 = 0 ∧
      countOf Event.isImageFileCreated
        (produceCompleteVideo env content voiceType aspect imageSource s0).2 = 0 ∧
      countOf Event.isRendered
        (produceCompleteVideo env content voiceType aspect imageSource s0).2 = 0 ∧
      countOf Event.isVideoFileCreated
        (produceCompleteVideo env content voiceType aspect imageSource s0).2 = 0 := by
  have key : ∃ E, produceBody env content voiceType aspect imageSource s0 =
      (.error (.valueError "Audio generation failed."), ⟨2, E⟩) ∧
      E.countP Event.isAudioFileCreated = 0 ∧ E.countP Event.isImageSourcing = 0 ∧
      E.countP Event.isImageFileCreated = 0 ∧ E.countP Event.isRendered = 0 ∧
      E.countP Event.isVideoFileCreated = 0 := by
    rcases hnull with hg0 | ht0 | hcl0
    · by_cases hc : (cleanScriptText (flattenScript content.script) == "") = true
      · exact ⟨[], by simp [produceBody, generateScriptAudioFn, isSet, killAt, s0, hk,
          hfal, hg0, hc], by simp, by simp, by simp, by simp, by simp⟩
      · exact ⟨[], by simp [produceBody, generateScriptAudioFn, isSet, killAt, s0, hk,
          hfal, hg0, hc], by simp, by simp, by simp, by simp, by simp⟩
    · by_cases hc : (cleanScriptText (flattenScript content.script) == "") = true
      · exact ⟨[], by simp [produceBody, generateScriptAudioFn, isSet, killAt, s0, hk,
          hfal, ht0, hc], by simp, by simp, by simp, by simp, by simp⟩
      · by_cases hgb : env.gttsAvailable = true
        · refine ⟨[.ttsCall (cleanScriptText (flattenScript content.script))],
            by simp [produceBody, generateScriptAudioFn, isSet, killAt, s0, hk,
              hfal, ht0, hc, hgb, emit], ?_, ?_, ?_, ?_, ?_⟩ <;>
            simp [List.countP_cons, Event.isAudioFileCreated, Event.isImageSourcing,
              Event.isGenApiCall, Event.isWebSearchCall, Event.isImageFileCreated,
              Event.isRendered, Event.isVideoFileCreated]
        · exact ⟨[], by simp [produceBody, generateScriptAudioFn, isSet, killAt, s0, hk,
            hfal, hc, hgb], by simp, by simp, by simp, by simp, by simp⟩
    · have hc : (cleanScriptText (flattenScript content.script) == "") = true := by
        simpa using hcl0
      exact ⟨[], by simp [produceBody, generateScriptAudioFn, isSet, killAt, s0, hk,
        hfal, hc], by simp, by simp, by simp, by simp, by simp⟩
  obtain ⟨E, hE, h1, h2, h3, h4, h5⟩ := key
  refine ⟨by rw [hE], ?_, ?_, ?_, ?_, ?_, ?_⟩ <;>
    simp [produceCompleteVideo, hE, countOf, h1, h2, h3, h4, h5]

/-- Witness for c3_null_audio_is_fatal: gTTS available but the synthesis call
throws, at an otherwise well-formed input. -/
theorem c3_null_audio_is_fatal_witness :
    (({ envA with ttsFails := true } : Env).killAfter = none ∧
        contentA.script.falsy = false ∧
        (({ envA with ttsFails := true } : Env).gttsAvailable = false ∨
          ({ envA with ttsFails := true } : Env).ttsFails = true ∨
          cleanScriptText (flattenScript contentA.script) = "")) ∧
      ((produceBody { envA with ttsFails := true } contentA "female_voice" "16:9"
            "ai_generated" s0).1 =
          .error (.valueError "Audio generation failed.") ∧
        (produceCompleteVideo { envA with ttsFails := true } contentA "female_voice"
          "16:9" "ai_generated" s0).1 = .ok none ∧
        countOf Event.isAudioFileCreated
          (produceCompleteVideo { envA with ttsFails := true } contentA "female_voice"
            "16:9" "ai_generated" s0).2 = 0 ∧
        countOf Event.isImageSourcing
          (produceCompleteVideo { envA with ttsFails := true } contentA "female_voice"
            "16:9" "ai_generated" s0).2 = 0 ∧
        countOf Event.isImageFileCreated
          (produceCompleteVideo { envA with ttsFails := true } contentA "female_voice"
            "16:9" "ai_generated" s0).2 = 0 ∧
        countOf Event.isRendered
          (produceCompleteVideo { envA with ttsFails := true } contentA "female_voice"
            "16:9" "ai_generated" s0).2 = 0 ∧
        countOf Event.isVideoFileCreated
          (produceCompleteVideo { envA with ttsFails := true } contentA "female_voice"
            "16:9" "ai_generated" s0).2 = 0) :=
  ⟨⟨rfl, rfl, Or.inr (Or.inl rfl)⟩,
    c3_null_audio_is_fatal { envA with ttsFails := true } contentA "female_voice" "16:9"
      "ai_generated" rfl rfl (Or.inr (Or.inl rfl))⟩

/-- C5 evidence: a cancellation observed during the production run is folded
into the generic failure outcome.  With the kill switch set at the checkpoint
after narration synthesis, produce_complete_video re-raises
InterruptedException, but the except-Exception handler of
YouTubeService.create_and_upload_video catches it first and returns a generic
failure dict carrying str(e), so MainOrchestrator.generate_single_youtube_video
reports the failure outcome, never its dedicated cancelled outcome — that
handler is unreachable for this pipeline. -/
theorem c5_cancellation_reported_as_failure :
    (produceCompleteVideo oeCancelled.env contentA "female_voice" "16:9"
        "ai_generated" s0).1 =
        .error (.interrupted "Operation cancelled after audio generation.") ∧
      (generateSingleYoutubeVideo oeCancelled true "ai_generated").1 =
        .failed "Operation cancelled after audio generation." ∧
      (generateSingleYoutubeVideo oeCancelled true "ai_generated").1 ≠ ApiResult.cancelled :=
  ⟨rfl, rfl, by decide⟩

/-- With the kill switch never set, the Stability generation loop returns
normally with the successful paths appended in input order, and appends exactly
the expected per-prompt trace. -/
theorem genLoop_spec (env : Env) (aspect : String) (hk : env.killAfter = none) :
    ∀ (prompts : List String) (i : Nat) (acc : List String) (s : PState),
      genLoop env aspect prompts i acc s =
        (.ok (acc ++ genPathsFrom env prompts i),
         ⟨s.checks + prompts.length, s.events ++ genTraceFrom env aspect prompts i⟩) := by
  intro prompts
  induction prompts with
  | nil => intro i acc s; simp [genLoop, genPathsFrom, genTraceFrom]
  | cons p rest ih =>
    intro i acc s
    by_cases hgf : env.genFails i = true
    · simp only [genLoop, isSet, killAt, hk, hgf, emit, if_true, ih]
      simp [genPathsFrom, genTraceFrom, hgf]
      omega
    · simp only [Bool.not_eq_true] at hgf
      simp only [genLoop, isSet, killAt, hk, hgf, emit, ih]
      simp [genPathsFrom, genTraceFrom, hgf]
      omega

/-- The expected generation trace contains exactly one generation API call per
prompt. -/
theorem genTraceFrom_count_calls (env : Env) (aspect : String) :
    ∀ (prompts : List String) (i : Nat),
      (genTraceFrom env aspect prompts i).countP Event.isGenApiCall = prompts.length := by
  intro prompts
  induction prompts with
  | nil => intro i; simp [genTraceFrom]
  | cons p rest ih =>
    intro i
    by_cases hgf : env.genFails i = true <;>
      simp [genTraceFrom, hgf, List.countP_cons, List.countP_append, ih,
        Event.isGenApiCall]

/-- C9 amended: in generated mode with a configured Stability key and no
cancellation, the resolver makes exactly one generation API call per prompt, in
input order, each with the prompt embellished by the fixed stylistic wrapper
and the target aspect setting (see genTraceFrom); a failed prompt contributes a
warning and is skipped, never an exception; and the returned image paths are
the successful prompts in input order (genPathsFrom).  Without a configured
key the source instead falls back to web search (see the counterexample). -/
theorem c9_generated_mode_one_call_per_prompt (env : Env) (prompts : List String)
    (aspect : String) (s : PState)
    (hk : env.killAfter = none) (hkey : env.hasApiKey = true) :
    generateImagesWithStability env prompts aspect s =
        (.ok (genPathsFrom env prompts 0),
         ⟨s.checks + prompts.length, s.events ++ genTraceFrom env aspect prompts 0⟩) ∧
      (genTraceFrom env aspect prompts 0).countP Event.isGenApiCall = prompts.length := by
  refine ⟨?_, genTraceFrom_count_calls env aspect prompts 0⟩
  simp [generateImagesWithStability, hkey, genLoop_spec env aspect hk]

/-- Witness for c9_generated_mode_one_call_per_prompt at a concrete prompt
list, with one failing prompt to exercise the skip path. -/
theorem c9_generated_mode_one_call_per_prompt_witness :
    (({ envA with genFails := fun i => i == 1 } : Env).killAfter = none ∧
        ({ envA with genFails := fun i => i == 1 } : Env).hasApiKey = true) ∧
      (generateImagesWithStability { envA with genFails := fun i => i == 1 }
          ["a", "b", "c"] "16:9" s0 =
          (.ok (genPathsFrom { envA with genFails := fun i => i == 1 } ["a", "b", "c"] 0),
           ⟨s0.checks + (["a", "b", "c"] : List String).length,
            s0.events ++ genTraceFrom { envA with genFails := fun i => i == 1 }
              "16:9" ["a", "b", "c"] 0⟩) ∧
        (genTraceFrom { envA with genFails := fun i => i == 1 } "16:9"
          ["a", "b", "c"] 0).countP Event.isGenApiCall =
          (["a", "b", "c"] : List String).length) :=
  ⟨⟨rfl, rfl⟩,
    c9_generated_mode_one_call_per_prompt { envA with genFails := fun i => i == 1 }
      ["a", "b", "c"] "16:9" s0 rfl rfl⟩

/-- C9 counterexample: with no configured Stability key, a generated-mode
resolution of one prompt issues zero generation API calls (the claim requires
exactly one) and instead issues a web search request. -/
theorem c9_no_key_falls_back_to_web_search :
    ((generateImagesWithStability envNoKey ["a red cube"] "16:9" s0).2.events.countP
        Event.isGenApiCall) = 0 ∧
      ((generateImagesWithStability envNoKey ["a red cube"] "16:9" s0).2.events.countP
        Event.isWebSearchCall) = 1 :=
  ⟨rfl, rfl⟩

/-- With the kill switch never set and every image decodable, the clip-assembly
loop returns one clip per image, in order, each with the fixed per-segment
duration, and creates no files. -/
theorem clipLoop_spec (env : Env) (segDur : ℚ) (hk : env.killAfter = none) :
    ∀ (images : List String) (s : PState) (acc : List VideoClip),
      (∀ p ∈ images, env.clipFails p = false) →
      clipLoop env segDur images s acc =
        (.ok (acc ++ images.map (fun p => imageContentClip p segDur)),
         ⟨s.checks + images.length, s.events⟩) := by
  intro images
  induction images with
  | nil => intro s acc _; simp [clipLoop]
  | cons p rest ih =>
    intro s acc hf
    have hp : env.clipFails p = false := hf p (by simp)
    simp only [clipLoop, isSet, killAt, hk, hp, emit, Bool.false_eq_true, if_false,
      ih _ _ (fun q hq => hf q (by simp [hq]))]
    simp
    omega

/-- C6: the Timeline Assembler's content stage.  With N = 0 images it produces
exactly one solid-colour clip spanning the whole narration duration; with
N > 0 decodable images (and no cancellation) it produces exactly N clips, in
input order, each of duration exactly d / N, and their durations sum to d. -/
theorem c6_content_segment_durations (env : Env) (images : List String) (d : ℚ)
    (res : Nat × Nat) (s : PState)
    (hk : env.killAfter = none) (hf : ∀ p ∈ images, env.clipFails p = false) :
    (images = [] →
      createContentClipsFromImages env images d res s = (.ok [solidContentClip d res], s)) ∧
    (images ≠ [] →
      ∃ clips, (createContentClipsFromImages env images d res s).1 = .ok clips ∧
        clips = images.map (fun p => imageContentClip p (d / images.length)) ∧
        clips.length = images.length ∧
        (∀ c ∈ clips, c.duration = d / images.length) ∧
        (clips.map VideoClip.duration).sum = d) := by
  constructor
  · intro h
    subst h
    simp [createContentClipsFromImages]
  · intro h
    have hne : images.isEmpty = false := by
      cases images with
      | nil => exact absurd rfl h
      | cons a l => rfl
    refine ⟨images.map (fun p => imageContentClip p (d / images.length)), ?_, rfl, by simp, ?_, ?_⟩
    · simp [createContentClipsFromImages, hne, clipLoop_spec env _ hk images s [] hf]
    · intro c hc
      rcases List.mem_map.mp hc with ⟨p, _, rfl⟩
      rfl
    · have hlen : images.length ≠ 0 := by simpa using h
      have hn0 : (images.length : ℚ) ≠ 0 := by exact_mod_cast hlen
      have hmap : (images.map (fun p => imageContentClip p (d / images.length))).map
          VideoClip.duration = List.replicate images.length (d / images.length) := by
        rw [List.map_map]
        rw [List.eq_replicate_iff]
        refine ⟨by simp, ?_⟩
        intro b hb
        rcases List.mem_map.mp hb with ⟨p, _, rfl⟩
        rfl
      rw [hmap, List.sum_replicate, nsmul_eq_mul, mul_div_cancel₀ d hn0]

/-- Witness for c6_content_segment_durations on two images and a 6-second
narration. -/
theorem c6_content_segment_durations_witness :
    (envA.killAfter = none ∧
        (∀ p ∈ (["i1", "i2"] : List String), envA.clipFails p = false)) ∧
      (((["i1", "i2"] : List String) = [] →
          createContentClipsFromImages envA ["i1", "i2"] 6 (1920, 1080) s0 =
            (.ok [solidContentClip 6 (1920, 1080)], s0)) ∧
        ((["i1", "i2"] : List String) ≠ [] →
          ∃ clips,
            (createContentClipsFromImages envA ["i1", "i2"] 6 (1920, 1080) s0).1 =
             .ok clips ∧
            clips = (["i1", "i2"] : List String).map
              (fun p => imageContentClip p (6 / (["i1", "i2"] : List String).length)) ∧
            clips.length = (["i1", "i2"] : List String).length ∧
            (∀ c ∈ clips,
              c.duration = 6 / (["i1", "i2"] : List String).length) ∧
            (clips.map VideoClip.duration).sum = 6)) :=
  ⟨⟨rfl, by decide⟩,
    c6_content_segment_durations envA ["i1", "i2"] 6 (1920, 1080) s0 rfl (by decide)⟩

/-- C8: background music mixing never fails the run.  With an empty music pool
the video is returned with its audio unchanged; if mixing fails for any reason
the video is returned unchanged; otherwise the picked pool track is adjusted
(10 percent gain, looped when not longer than the video, trimmed when longer)
and composed under the unattenuated existing audio. -/
theorem c8_music_mixing_total (env : Env) (v : VideoClip) :
    (musicCandidates env = [] → addBackgroundMusic env v = v) ∧
      (env.mixFails = true → addBackgroundMusic env v = v) ∧
      (∀ a c cs, env.mixFails = false → musicCandidates env = c :: cs → v.aud = some a →
        addBackgroundMusic env v =
          { v with aud := some (.compositeA [(0, a),
              (0, adjustedMusic env v.duration
                ((c :: cs).getD (env.musicPick % (c :: cs).length) c))]) }) := by
  refine ⟨?_, ?_, ?_⟩
  · intro h
    by_cases hm : env.mixFails = true <;> simp [addBackgroundMusic, hm, h]
  · intro hm
    simp [addBackgroundMusic, hm]
  · intro a c cs hm hc ha
    simp [addBackgroundMusic, hm, hc, ha]

/-- Witness for c8_music_mixing_total: one 4-second pool track under a
14-second video whose audio is a narration file. -/
theorem c8_music_mixing_total_witness :
    (({ envA with musicFiles := ["song.mp3"], musicLen := fun _ => 4 } : Env).mixFails
        = false ∧
      musicCandidates { envA with musicFiles := ["song.mp3"], musicLen := fun _ => 4 } =
        ["music_assets/song.mp3"] ∧
      (⟨14, some (.file "n" 6), []⟩ : VideoClip).aud = some (.file "n" 6)) ∧
      addBackgroundMusic { envA with musicFiles := ["song.mp3"], musicLen := fun _ => 4 }
          ⟨14, some (.file "n" 6), []⟩ =
        { (⟨14, some (.file "n" 6), []⟩ : VideoClip) with
          aud := some (.compositeA [(0, .file "n" 6),
            (0, adjustedMusic { envA with musicFiles := ["song.mp3"], musicLen := fun _ => 4 }
              14 "music_assets/song.mp3")]) } :=
  ⟨⟨rfl, rfl, rfl⟩,
    (c8_music_mixing_total { envA with musicFiles := ["song.mp3"], musicLen := fun _ => 4 }
        ⟨14, some (.file "n" 6), []⟩).2.2 (.file "n" 6) "music_assets/song.mp3" [] rfl rfl rfl⟩

/-- Appending a non-deletion event leaves the deletion count unchanged. -/
theorem delCount_emit (s : PState) (e : Event) (h : e.isFileDeleted = false) :
    delCount (emit s e) = delCount s := by
  simp [delCount, emit, List.countP_append, List.countP_cons, h]

/-- Advancing only the check counter leaves the deletion count unchanged. -/
theorem delCount_checks (s : PState) (n : Nat) :
    delCount ⟨n, s.events⟩ = delCount s := rfl

/-- The url loop deletes nothing. -/
theorem delCount_tryUrls (env : Env) (i : Nat) :
    ∀ (urls : List UrlSpec) (s : PState),
      delCount (tryUrls env i urls s).2 = delCount s := by
  intro urls
  induction urls with
  | nil => intro s; simp [tryUrls]
  | cons u rest ih =>
    intro s
    simp only [tryUrls]
    split
    · split
      · split
        · exact delCount_emit s _ rfl
        · exact ih s
      · exact ih s
    · exact ih s

/-- The web search loop deletes nothing. -/
theorem delCount_searchLoop (env : Env) :
    ∀ (queries : List String) (i : Nat) (acc : List String) (s : PState),
      delCount (searchLoop env queries i acc s).2 = delCount s := by
  intro queries
  induction queries with
  | nil => intro i acc s; simp [searchLoop]
  | cons q rest ih =>
    intro i acc s
    simp only [searchLoop, isSet]
    split
    · simp [delCount]
    · have hemit : delCount (emit { s with checks := s.checks + 1 }
          (.webSearchCall i q)) = delCount s := delCount_emit _ _ rfl
      split
      · rw [ih, hemit]
      · split
        · rename_i heq
          have h1 : delCount (tryUrls env i (env.webUrls i)
              (emit { s with checks := s.checks + 1 } (.webSearchCall i q))).2 =
              delCount s := by rw [delCount_tryUrls, hemit]
          rw [heq] at h1
          rw [ih, h1]
        · rename_i heq
          have h1 : delCount (tryUrls env i (env.webUrls i)
              (emit { s with checks := s.checks + 1 } (.webSearchCall i q))).2 =
              delCount s := by rw [delCount_tryUrls, hemit]
          rw [heq] at h1
          rw [ih, h1]

/-- The generation loop deletes nothing. -/
theorem delCount_genLoop (env : Env) (aspect : String) :
    ∀ (prompts : List String) (i : Nat) (acc : List String) (s : PState),
      delCount (genLoop env aspect prompts i acc s).2 = delCount s := by
  intro prompts
  induction prompts with
  | nil => intro i acc s; simp [genLoop]
  | cons p rest ih =>
    intro i acc s
    simp only [genLoop, isSet]
    split
    · simp [delCount]
    · split
      · rw [ih]
        simp [delCount, emit, List.countP_append, List.countP_cons, Event.isFileDeleted]
      · rw [ih]
        simp [delCount, emit, List.countP_append, List.countP_cons, Event.isFileDeleted]

/-- The clip-assembly loop deletes nothing. -/
theorem delCount_clipLoop (env : Env) (segDur : ℚ) :
    ∀ (images : List String) (s : PState) (acc : List VideoClip),
      delCount (clipLoop env segDur images s acc).2 = delCount s := by
  intro images
  induction images with
  | nil => intro s acc; simp [clipLoop]
  | cons p rest ih =>
    intro s acc
    simp only [clipLoop, isSet]
    split
    · simp [delCount]
    · split
      · rw [ih]
        simp [delCount, emit, List.countP_append, List.countP_cons, Event.isFileDeleted]
      · rw [ih]
        simp [delCount]

/-- Narration synthesis deletes nothing. -/
theorem delCount_generateScriptAudioFn (env : Env) (scriptText voiceType : String)
    (s : PState) :
    delCount (generateScriptAudioFn env scriptText voiceType s).2 = delCount s := by
  simp only [generateScriptAudioFn, isSet]
  split
  · simp [delCount]
  · split
    · simp [delCount]
    · split
      · split
        · simp [delCount, emit, List.countP_append, List.countP_cons, Event.isFileDeleted]
        · simp [delCount, emit, List.countP_append, List.countP_cons, Event.isFileDeleted]
      · simp [delCount]

/-- Web image sourcing (wrapper) deletes nothing. -/
theorem delCount_searchAndDownloadImages (env : Env) (queries : List String) (s : PState) :
    delCount (searchAndDownloadImages env queries s).2 = delCount s :=
  delCount_searchLoop env queries 0 [] s

/-- Image resolution (either mode, key or not) deletes nothing. -/
theorem delCount_generateImagesWithStability (env : Env) (prompts : List String)
    (aspect : String) (s : PState) :
    delCount (generateImagesWithStability env prompts aspect s).2 = delCount s := by
  simp only [generateImagesWithStability]
  split
  · exact delCount_searchAndDownloadImages env prompts s
  · exact delCount_genLoop env aspect prompts 0 [] s

/-- Recording a render deletes nothing. -/
theorem delCount_emit_rendered (s : PState) (v : VideoClip) :
    delCount (emit s (.rendered v)) = delCount s := delCount_emit s _ rfl

/-- Recording the output file creation deletes nothing. -/
theorem delCount_emit_videoFile (s : PState) (p : String) :
    delCount (emit s (.videoFileCreated p)) = delCount s := delCount_emit s _ rfl

/-- The body of produce_complete_video never deletes a file on any path. -/
theorem delCount_produceBody (env : Env) (content : ContentPackage)
    (voiceType aspect imageSource : String) (s : PState) :
    delCount (produceBody env content voiceType aspect imageSource s).2 = delCount s := by
  simp only [produceBody, isSet]
  split
  · simp [delCount]
  · split
    · simp [delCount]
    · have haud := delCount_generateScriptAudioFn env (flattenScript content.script)
        voiceType { s with checks := s.checks + 1 }
      split <;> rename_i heqa
      · rw [heqa] at haud
        simpa [delCount] using haud
      · rw [heqa] at haud
        simpa [delCount] using haud
      · rw [heqa] at haud
        simp only at haud
        rename_i audioFile sa
        split <;> rename_i hb2
        · simpa [delCount] using haud
        · have himg : delCount ((if imageSource == "ai_generated"
              then generateImagesWithStability env content.imagePrompts aspect
                { sa with checks := sa.checks + 1 }
              else searchAndDownloadImages env content.imagePrompts
                { sa with checks := sa.checks + 1 })).2 =
              delCount sa := by
            split
            · rw [delCount_generateImagesWithStability]; simp [delCount]
            · rw [delCount_searchAndDownloadImages]; simp [delCount]
          split <;> rename_i heqi
          · rw [heqi] at himg
            simp only at himg
            rw [himg, haud]
            simp [delCount]
          · rw [heqi] at himg
            simp only at himg
            rename_i imagePaths si
            split <;> rename_i hb3
            · rw [delCount_checks] at *
              rw [himg, haud]
              simp [delCount]
            · have hclips := delCount_clipLoop env (env.audioDuration / imagePaths.length)
                imagePaths { si with checks := si.checks + 1 } []
              have hclips2 : delCount (createContentClipsFromImages env imagePaths
                  env.audioDuration (resOf aspect) { si with checks := si.checks + 1 }).2 =
                  delCount si := by
                simp only [createContentClipsFromImages]
                split
                · simp [delCount]
                · rw [hclips]; simp [delCount]
              split <;> rename_i heqc
              · rw [heqc] at hclips2
                simp only at hclips2
                rw [hclips2, himg, haud]
                simp [delCount]
              · rw [heqc] at hclips2
                simp only at hclips2
                rename_i contentClips sc
                split
                · rw [hclips2, himg, haud]
                  simp [delCount]
                · split
                  · rw [hclips2, himg, haud]
                    simp [delCount]
                  · split <;> rename_i hb4
                    · rw [delCount_checks] at *
                      rw [hclips2, himg, haud]
                      simp [delCount]
                    · split
                      · rw [delCount_emit_rendered, delCount_checks, hclips2, himg, haud]
                        simp [delCount]
                      · rw [delCount_emit_videoFile, delCount_emit_rendered, delCount_checks,
                          hclips2, himg, haud]
                        simp [delCount]

/-- C1 amended: produce_complete_video deletes nothing, on any exit path.  The
source contains no cleanup: for every environment, content package and
parameters, the run records zero file deletions, so every temporary artifact
created during the run (the narration file and every per-image file) still
exists when the call returns, alongside the final video on success. -/
theorem c1_no_cleanup_ever (env : Env) (content : ContentPackage)
    (voiceType aspect imageSource : String) :
    delCount (produceCompleteVideo env content voiceType aspect imageSource s0).2 = 0 := by
  have hbody := delCount_produceBody env content voiceType aspect imageSource s0
  unfold produceCompleteVideo
  rcases h : produceBody env content voiceType aspect imageSource s0 with ⟨r, s⟩
  rw [h] at hbody
  rcases r with e | v
  · rcases e with m | m | m <;> simpa [delCount, s0] using hbody
  · simpa [delCount, s0] using hbody

/-- C1 counterexample: a fully successful concrete run creates the narration
temporary file and a per-image temporary file, and deletes neither before
returning — contradicting the claim that every local temporary artifact is
deleted before the call returns. -/
theorem c1_temp_artifacts_survive_success :
    (produceCompleteVideo envA contentA "female_voice" "16:9" "ai_generated" s0).1 =
        .ok (some ⟨videoOutFile "20240101_000000", contentA⟩) ∧
      ((produceCompleteVideo envA contentA "female_voice" "16:9" "ai_generated"
        s0).2.events.countP Event.isAudioFileCreated) = 1 ∧
      ((produceCompleteVideo envA contentA "female_voice" "16:9" "ai_generated"
        s0).2.events.countP Event.isImageFileCreated) = 1 ∧
      ((produceCompleteVideo envA contentA "female_voice" "16:9" "ai_generated"
        s0).2.events.countP Event.isFileDeleted) = 0 :=
  ⟨rfl, rfl, rfl, rfl⟩

/-- Successful narration synthesis: with no cancellation, gTTS available and
working, and a non-empty cleaned script, the narration file is written and its
path returned. -/
theorem generateScriptAudioFn_ok (env : Env) (scriptText voiceType : String) (s : PState)
    (hk : env.killAfter = none) (hcl : cleanScriptText scriptText ≠ "")
    (hg : env.gttsAvailable = true) (ht : env.ttsFails = false) :
    generateScriptAudioFn env scriptText voiceType s =
      (.ok (some (narrAudioFile env.timestamp)),
       ⟨s.checks + 1, s.events ++ [.ttsCall (cleanScriptText scriptText),
          .audioFileCreated (narrAudioFile env.timestamp)]⟩) := by
  have hclb : (cleanScriptText scriptText == "") = false := by simpa using hcl
  simp [generateScriptAudioFn, isSet, killAt, hk, hclb, hg, ht, emit]

/-- When no generation call fails, the generation loop resolves every prompt. -/
theorem genPathsFrom_length (env : Env) (hgen : ∀ j, env.genFails j = false) :
    ∀ (prompts : List String) (i : Nat),
      (genPathsFrom env prompts i).length = prompts.length := by
  intro prompts
  induction prompts with
  | nil => intro i; simp [genPathsFrom]
  | cons p rest ih => intro i; simp [genPathsFrom, hgen i, ih]

/-- The intro clip is silent. -/
theorem createIntroClip_aud (env : Env) (dur : ℚ) (res : Nat × Nat) :
    (createIntroClip env dur res).aud = none := by
  unfold createIntroClip; split <;> rfl

/-- The intro clip has the requested duration. -/
theorem createIntroClip_duration (env : Env) (dur : ℚ) (res : Nat × Nat) :
    (createIntroClip env dur res).duration = dur := by
  unfold createIntroClip; split <;> rfl

/-- The outro clip is silent. -/
theorem createOutroClip_aud (env : Env) (dur : ℚ) (res : Nat × Nat) :
    (createOutroClip env dur res).aud = none := by
  unfold createOutroClip; split <;> rfl

/-- The outro clip has the requested duration. -/
theorem createOutroClip_duration (env : Env) (dur : ℚ) (res : Nat × Nat) :
    (createOutroClip env dur res).duration = dur := by
  unfold createOutroClip; split <;> rfl

/-- The per-image clip is silent. -/
theorem imageContentClip_aud (p : String) (sd : ℚ) :
    (imageContentClip p sd).aud = none := rfl

/-- The per-image clip has the per-segment duration. -/
theorem imageContentClip_duration (p : String) (sd : ℚ) :
    (imageContentClip p sd).duration = sd := rfl

/-- The per-image clip shows exactly its image for the per-segment duration. -/
theorem imageContentClip_track (p : String) (sd : ℚ) :
    (imageContentClip p sd).track = [⟨[.image p], sd⟩] := rfl

/-- Durations of the per-image clips sum to count times the per-segment
duration. -/
theorem imageClips_duration_sum (l : List String) (sd : ℚ) :
    ((l.map (fun p => imageContentClip p sd)).map VideoClip.duration).sum =
      l.length * sd := by
  induction l with
  | nil => simp
  | cons p rest ih =>
    simp only [List.map_cons, List.sum_cons, List.length_cons, imageContentClip_duration, ih]
    push_cast
    ring

/-- Per-image clips are silent, so they contribute no audio parts. -/
theorem concatAudioParts_imageClips (l : List String) (sd : ℚ) :
    ∀ off, concatAudioParts (l.map (fun p => imageContentClip p sd)) off = [] := by
  induction l with
  | nil => intro off; simp [concatAudioParts]
  | cons p rest ih =>
    intro off
    simp only [List.map_cons, concatAudioParts, imageContentClip_aud, ih]
    simp

/-- The flattened visual timeline of the per-image clips: one image segment per
path, in order. -/
theorem tracks_imageClips (l : List String) (sd : ℚ) :
    ((l.map (fun p => imageContentClip p sd)).map VideoClip.track).flatten =
      l.map (fun p => ⟨[.image p], sd⟩) := by
  induction l with
  | nil => simp
  | cons p rest ih =>
    simp only [List.map_cons, List.flatten_cons, imageContentClip_track, ih]
    simp

/-- The generation trace contains no render events. -/
theorem genTraceFrom_no_rendered (env : Env) (aspect : String) :
    ∀ (prompts : List String) (i : Nat),
      (genTraceFrom env aspect prompts i).filterMap getRenderedEvent = [] := by
  intro prompts
  induction prompts with
  | nil => intro i; simp [genTraceFrom]
  | cons p rest ih =>
    intro i
    by_cases hgf : env.genFails i = true <;> simp [genTraceFrom, hgf, ih, getRenderedEvent]

/-- An element picked by getD with the head as default is in the list. -/
theorem getD_cons_self_mem {α : Type} (c : α) (cs : List α) (i : Nat) :
    (c :: cs).getD i c ∈ c :: cs := by
  rcases h : (c :: cs)[i]? with _ | x
  · simp [List.getD_eq_getElem?_getD, h]
  · have := List.getElem?_mem h
    simpa [List.getD_eq_getElem?_getD, h] using this

/-- Music mixing never changes the visual timeline or the duration. -/
theorem addBackgroundMusic_visuals (env : Env) (v : VideoClip) :
    (addBackgroundMusic env v).track = v.track ∧
      (addBackgroundMusic env v).duration = v.duration := by
  unfold addBackgroundMusic
  split
  · exact ⟨rfl, rfl⟩
  · split
    · exact ⟨rfl, rfl⟩
    · split
      · exact ⟨rfl, rfl⟩
      · exact ⟨rfl, rfl⟩

/-- The adjusted music track never plays the narration file when the picked
pool track is a different file. -/
theorem spansOf_adjustedMusic (env : Env) (videoDur : ℚ) (path target : String)
    (h : path ≠ target) (off : ℚ) :
    AudioTrack.spansOf target (adjustedMusic env videoDur path) off = [] := by
  unfold adjustedMusic
  split <;> simp [AudioTrack.spansOf, h]

/-- Music mixing preserves where the narration file plays: the mixed audio has
the same narration spans as the original audio. -/
theorem addBackgroundMusic_spans (env : Env) (v : VideoClip) (target : String)
    (au : AudioTrack) (ha : v.aud = some au)
    (hmt : ∀ f ∈ musicCandidates env, f ≠ target) :
    ∃ au2, (addBackgroundMusic env v).aud = some au2 ∧
      AudioTrack.spansOf target au2 0 = AudioTrack.spansOf target au 0 := by
  unfold addBackgroundMusic
  split
  · exact ⟨au, ha, rfl⟩
  · split
    · exact ⟨au, ha, rfl⟩
    · rename_i hm c cs hc
      rw [ha]
      refine ⟨_, rfl, ?_⟩
      have hpath : (c :: cs).getD (env.musicPick % (c :: cs).length) c ∈ c :: cs :=
        getD_cons_self_mem c cs _
      have hne : (c :: cs).getD (env.musicPick % (c :: cs).length) c ≠ target := by
        apply hmt
        rw [hc]
        exact hpath
      simp only [AudioTrack.spansOf, spansOfParts]
      rw [spansOf_adjustedMusic env v.duration _ target hne]
      simp

/-- Mapping preserves emptiness. -/
theorem isEmpty_map {α β : Type} (f : α → β) (l : List α) :
    (l.map f).isEmpty = l.isEmpty := by
  cases l <;> rfl


/-- Successful narration synthesis, assuming only that its single kill-switch
read does not observe the flag. -/
theorem generateScriptAudioFn_ok2 (env : Env) (scriptText voiceType : String) (s : PState)
    (hr : killAt env s.checks = false) (hcl : cleanScriptText scriptText ≠ "")
    (hg : env.gttsAvailable = true) (ht : env.ttsFails = false) :
    generateScriptAudioFn env scriptText voiceType s =
      (.ok (some (narrAudioFile env.timestamp)),
       ⟨s.checks + 1, s.events ++ [.ttsCall (cleanScriptText scriptText),
          .audioFileCreated (narrAudioFile env.timestamp)]⟩) := by
  have hclb : (cleanScriptText scriptText == "") = false := by simpa using hcl
  simp [generateScriptAudioFn, isSet, hr, hclb, hg, ht, emit]

/-- The url loop is a pure search: it saves and returns the image exactly when
tryUrlsFound holds, and otherwise changes nothing. -/
theorem tryUrls_spec (env : Env) (i : Nat) :
    ∀ (urls : List UrlSpec) (s : PState),
      tryUrls env i urls s =
        (if tryUrlsFound env i urls then
          (some (webImageFile i env.timestamp),
           emit s (.imageFileCreated (webImageFile i env.timestamp)))
         else (none, s)) := by
  intro urls
  induction urls with
  | nil => intro s; simp [tryUrls, tryUrlsFound]
  | cons u rest ih =>
    intro s
    by_cases h1 : hasImageExt u.url = true
    · by_cases h2 : (u.fetchOk && u.statusCode == 200) = true
      · by_cases h3 : u.decodes = true
        · simp [tryUrls, tryUrlsFound, h1, h2, h3]
        · simp [tryUrls, tryUrlsFound, h1, h2, h3, ih]
      · simp [tryUrls, tryUrlsFound, h1, h2, ih]
    · simp [tryUrls, tryUrlsFound, h1, ih]

/-- As long as all reads up to an index bound B stay below the kill point, the
generation loop returns the successful paths in input order and appends
exactly the expected per-prompt trace, whatever the per-prompt failures. -/
theorem genLoop_spec2 (env : Env) (aspect : String) (B : Nat)
    (hnk : ∀ j, j < B → killAt env j = false) :
    ∀ (prompts : List String) (i : Nat) (acc : List String) (s : PState),
      s.checks + prompts.length ≤ B →
      genLoop env aspect prompts i acc s =
        (.ok (acc ++ genPathsFrom env prompts i),
         ⟨s.checks + prompts.length, s.events ++ genTraceFrom env aspect prompts i⟩) := by
  intro prompts
  induction prompts with
  | nil => intro i acc s _; simp [genLoop, genPathsFrom, genTraceFrom]
  | cons p rest ih =>
    intro i acc s hB
    have h0 : killAt env s.checks = false := hnk s.checks (by simp at hB; omega)
    by_cases hgf : env.genFails i = true
    · simp only [genLoop, isSet, h0, hgf, emit, if_true, Bool.false_eq_true, if_false]
      rw [ih (i + 1) acc _ (by simp at hB ⊢; omega)]
      simp [genPathsFrom, genTraceFrom, hgf]
      omega
    · simp only [Bool.not_eq_true] at hgf
      simp only [genLoop, isSet, h0, hgf, emit, Bool.false_eq_true, if_false]
      rw [ih (i + 1) (acc ++ [aiImageFile i env.timestamp]) _ (by simp at hB ⊢; omega)]
      simp [genPathsFrom, genTraceFrom, hgf]
      omega

/-- As long as all reads up to an index bound B stay below the kill point, the
web search loop returns the found images in input order and appends exactly
the expected per-query trace. -/
theorem searchLoop_spec2 (env : Env) (B : Nat)
    (hnk : ∀ j, j < B → killAt env j = false) :
    ∀ (queries : List String) (i : Nat) (acc : List String) (s : PState),
      s.checks + queries.length ≤ B →
      searchLoop env queries i acc s =
        (.ok (acc ++ searchPathsFrom env queries i),
         ⟨s.checks + queries.length, s.events ++ searchTraceFrom env queries i⟩) := by
  intro queries
  induction queries with
  | nil => intro i acc s _; simp [searchLoop, searchPathsFrom, searchTraceFrom]
  | cons q rest ih =>
    intro i acc s hB
    have h0 : killAt env s.checks = false := hnk s.checks (by simp at hB; omega)
    by_cases hsf : env.searchFails i = true
    · simp only [searchLoop, isSet, h0, hsf, emit, if_true, Bool.false_eq_true, if_false]
      rw [ih (i + 1) acc _ (by simp at hB ⊢; omega)]
      simp [searchPathsFrom, searchTraceFrom, hsf]
      omega
    · simp only [Bool.not_eq_true] at hsf
      simp only [searchLoop, isSet, h0, hsf, emit, Bool.false_eq_true, if_false,
        tryUrls_spec env i]
      by_cases hfo : tryUrlsFound env i (env.webUrls i) = true
      · simp only [hfo, if_true, emit]
        rw [ih (i + 1) (acc ++ [webImageFile i env.timestamp]) _ (by simp at hB ⊢; omega)]
        simp [searchPathsFrom, searchTraceFrom, hsf, hfo]
        omega
      · simp only [Bool.not_eq_true] at hfo
        simp only [hfo, Bool.false_eq_true, if_false]
        rw [ih (i + 1) acc _ (by simp at hB ⊢; omega)]
        simp [searchPathsFrom, searchTraceFrom, hsf, hfo]
        omega

/-- As long as all reads up to an index bound B stay below the kill point, the
clip-assembly loop returns one clip per decodable image in order, with one
warning per undecodable image. -/
theorem clipLoop_spec2 (env : Env) (segDur : ℚ) (B : Nat)
    (hnk : ∀ j, j < B → killAt env j = false) :
    ∀ (images : List String) (s : PState) (acc : List VideoClip),
      s.checks + images.length ≤ B →
      clipLoop env segDur images s acc =
        (.ok (acc ++ clipsOf env segDur images),
         ⟨s.checks + images.length, s.events ++ clipTraceOf env images⟩) := by
  intro images
  induction images with
  | nil => intro s acc _; simp [clipLoop, clipsOf, clipTraceOf]
  | cons p rest ih =>
    intro s acc hB
    have h0 : killAt env s.checks = false := hnk s.checks (by simp at hB; omega)
    by_cases hcf : env.clipFails p = true
    · simp only [clipLoop, isSet, h0, hcf, emit, if_true, Bool.false_eq_true, if_false]
      rw [ih _ acc (by simp at hB ⊢; omega)]
      simp [clipsOf, clipTraceOf, hcf]
      omega
    · simp only [Bool.not_eq_true] at hcf
      simp only [clipLoop, isSet, h0, hcf, emit, Bool.false_eq_true, if_false]
      rw [ih _ (acc ++ [imageContentClip p segDur]) (by simp at hB ⊢; omega)]
      simp [clipsOf, clipTraceOf, hcf]
      omega

/-- The image-resolution stage of produce_complete_video, for either sourcing
mode (including the silent no-key fallback to web search): as long as its
reads stay below the kill point it returns the resolved paths in input order,
consumes one read per prompt, and appends the expected trace. -/
theorem imageStage_spec (env : Env) (prompts : List String) (aspect imageSource : String)
    (s : PState) (B : Nat) (hnk : ∀ j, j < B → killAt env j = false)
    (hB : s.checks + prompts.length ≤ B) :
    (if imageSource == "ai_generated"
     then generateImagesWithStability env prompts aspect s
     else searchAndDownloadImages env prompts s) =
      (.ok (imagePathsOf env prompts imageSource),
       ⟨s.checks + prompts.length,
        s.events ++ imageTraceOf env aspect prompts imageSource⟩) := by
  by_cases hm : (imageSource == "ai_generated") = true
  · by_cases hkey : env.hasApiKey = true
    · simp only [hm, if_true, generateImagesWithStability, hkey, Bool.not_true,
        Bool.false_eq_true, if_false, imagePathsOf, imageTraceOf,
        genLoop_spec2 env aspect B hnk prompts 0 [] s hB]
      simp
    · simp only [Bool.not_eq_true] at hkey
      simp only [hm, if_true, generateImagesWithStability, hkey, Bool.not_false,
        searchAndDownloadImages, imagePathsOf, imageTraceOf,
        searchLoop_spec2 env B hnk prompts 0 [] s hB]
      simp
  · simp only [Bool.not_eq_true] at hm
    simp only [hm, Bool.false_eq_true, if_false, searchAndDownloadImages, imagePathsOf,
      imageTraceOf, searchLoop_spec2 env B hnk prompts 0 [] s hB]
    simp

/-- The generation trace consists only of stage events. -/
theorem countP_genTraceFrom (env : Env) (aspect : String) (P : Event → Bool)
    (hP : IgnoresStageEvents P) :
    ∀ (prompts : List String) (i : Nat),
      (genTraceFrom env aspect prompts i).countP P = 0 := by
  obtain ⟨h1, h2, h3, h4, h5, h6⟩ := hP
  intro prompts
  induction prompts with
  | nil => intro i; simp [genTraceFrom]
  | cons p rest ih =>
    intro i
    by_cases hgf : env.genFails i = true <;>
      simp [genTraceFrom, hgf, List.countP_cons, List.countP_append, ih, h3, h5, h6]

/-- The web search trace consists only of stage events. -/
theorem countP_searchTraceFrom (env : Env) (P : Event → Bool)
    (hP : IgnoresStageEvents P) :
    ∀ (queries : List String) (i : Nat),
      (searchTraceFrom env queries i).countP P = 0 := by
  obtain ⟨h1, h2, h3, h4, h5, h6⟩ := hP
  intro queries
  induction queries with
  | nil => intro i; simp [searchTraceFrom]
  | cons q rest ih =>
    intro i
    by_cases hs : (!env.searchFails i && tryUrlsFound env i (env.webUrls i)) = true <;>
      simp [searchTraceFrom, hs, List.countP_cons, List.countP_append, ih, h4, h5]

/-- The clip-assembly trace consists only of stage events. -/
theorem countP_clipTraceOf (env : Env) (P : Event → Bool) (hP : IgnoresStageEvents P) :
    ∀ (images : List String), (clipTraceOf env images).countP P = 0 := by
  obtain ⟨h1, h2, h3, h4, h5, h6⟩ := hP
  intro images
  induction images with
  | nil => simp [clipTraceOf]
  | cons p rest ih =>
    by_cases hcf : env.clipFails p = true <;>
      simp [clipTraceOf, hcf, List.countP_cons, List.countP_append, ih, h6]

/-- The image-resolution trace, in either mode, consists only of stage
events. -/
theorem countP_imageTraceOf (env : Env) (aspect imageSource : String)
    (prompts : List String) (P : Event → Bool) (hP : IgnoresStageEvents P) :
    (imageTraceOf env aspect prompts imageSource).countP P = 0 := by
  unfold imageTraceOf
  split
  · split
    · exact countP_genTraceFrom env aspect P hP prompts 0
    · exact countP_searchTraceFrom env P hP prompts 0
  · exact countP_searchTraceFrom env P hP prompts 0

/-- The web search trace contains no render events. -/
theorem searchTraceFrom_no_rendered (env : Env) :
    ∀ (queries : List String) (i : Nat),
      (searchTraceFrom env queries i).filterMap getRenderedEvent = [] := by
  intro queries
  induction queries with
  | nil => intro i; simp [searchTraceFrom]
  | cons q rest ih =>
    intro i
    by_cases hs : (!env.searchFails i && tryUrlsFound env i (env.webUrls i)) = true <;>
      simp [searchTraceFrom, hs, ih, getRenderedEvent]

/-- The image-resolution trace contains no render events. -/
theorem imageTraceOf_no_rendered (env : Env) (aspect imageSource : String)
    (prompts : List String) :
    (imageTraceOf env aspect prompts imageSource).filterMap getRenderedEvent = [] := by
  unfold imageTraceOf
  split
  · split
    · exact genTraceFrom_no_rendered env aspect prompts 0
    · exact searchTraceFrom_no_rendered env prompts 0
  · exact searchTraceFrom_no_rendered env prompts 0

/-- The clip-assembly trace contains no render events. -/
theorem clipTraceOf_no_rendered (env : Env) :
    ∀ (images : List String),
      (clipTraceOf env images).filterMap getRenderedEvent = [] := by
  intro images
  induction images with
  | nil => simp [clipTraceOf]
  | cons p rest ih =>
    by_cases hcf : env.clipFails p = true <;>
      simp [clipTraceOf, hcf, ih, getRenderedEvent]

/-- Appending an event the predicate ignores leaves its count unchanged. -/
theorem countOf_emit (P : Event → Bool) (s : PState) (e : Event) (h : P e = false) :
    countOf P (emit s e) = countOf P s := by
  simp [countOf, emit, List.countP_append, List.countP_cons, h]

/-- Advancing only the check counter leaves any event count unchanged. -/
theorem countOf_checks (P : Event → Bool) (s : PState) (n : Nat) :
    countOf P ⟨n, s.events⟩ = countOf P s := rfl

/-- The url loop only emits stage events. -/
theorem countOf_tryUrls (P : Event → Bool) (h5 : ∀ p, P (.imageFileCreated p) = false)
    (env : Env) (i : Nat) :
    ∀ (urls : List UrlSpec) (s : PState),
      countOf P (tryUrls env i urls s).2 = countOf P s := by
  intro urls
  induction urls with
  | nil => intro s; simp [tryUrls]
  | cons u rest ih =>
    intro s
    simp only [tryUrls]
    split
    · split
      · split
        · exact countOf_emit P s _ (h5 _)
        · exact ih s
      · exact ih s
    · exact ih s

/-- The web search loop only emits stage events. -/
theorem countOf_searchLoop (P : Event → Bool) (hP : IgnoresStageEvents P) (env : Env) :
    ∀ (queries : List String) (i : Nat) (acc : List String) (s : PState),
      countOf P (searchLoop env queries i acc s).2 = countOf P s := by
  obtain ⟨h1, h2, h3, h4, h5, h6⟩ := hP
  intro queries
  induction queries with
  | nil => intro i acc s; simp [searchLoop]
  | cons q rest ih =>
    intro i acc s
    simp only [searchLoop, isSet]
    split
    · simp [countOf]
    · have hemit : countOf P (emit { s with checks := s.checks + 1 }
          (.webSearchCall i q)) = countOf P s := countOf_emit P _ _ (h4 i q)
      split
      · rw [ih, hemit]
      · split
        · rename_i heq
          have h0 : countOf P (tryUrls env i (env.webUrls i)
              (emit { s with checks := s.checks + 1 } (.webSearchCall i q))).2 =
              countOf P s := by rw [countOf_tryUrls P h5, hemit]
          rw [heq] at h0
          rw [ih, h0]
        · rename_i heq
          have h0 : countOf P (tryUrls env i (env.webUrls i)
              (emit { s with checks := s.checks + 1 } (.webSearchCall i q))).2 =
              countOf P s := by rw [countOf_tryUrls P h5, hemit]
          rw [heq] at h0
          rw [ih, h0]

/-- The generation loop only emits stage events. -/
theorem countOf_genLoop (P : Event → Bool) (hP : IgnoresStageEvents P) (env : Env)
    (aspect : String) :
    ∀ (prompts : List String) (i : Nat) (acc : List String) (s : PState),
      countOf P (genLoop env aspect prompts i acc s).2 = countOf P s := by
  obtain ⟨h1, h2, h3, h4, h5, h6⟩ := hP
  intro prompts
  induction prompts with
  | nil => intro i acc s; simp [genLoop]
  | cons p rest ih =>
    intro i acc s
    simp only [genLoop, isSet]
    split
    · simp [countOf]
    · split
      · rw [ih]
        rw [countOf_emit P _ _ (h6 _), countOf_emit P _ _ (h3 _ _ _)]
        rfl
      · rw [ih]
        rw [countOf_emit P _ _ (h5 _), countOf_emit P _ _ (h3 _ _ _)]
        rfl

/-- The clip-assembly loop only emits stage events. -/
theorem countOf_clipLoop (P : Event → Bool) (hP : IgnoresStageEvents P) (env : Env)
    (segDur : ℚ) :
    ∀ (images : List String) (s : PState) (acc : List VideoClip),
      countOf P (clipLoop env segDur images s acc).2 = countOf P s := by
  obtain ⟨h1, h2, h3, h4, h5, h6⟩ := hP
  intro images
  induction images with
  | nil => intro s acc; simp [clipLoop]
  | cons p rest ih =>
    intro s acc
    simp only [clipLoop, isSet]
    split
    · simp [countOf]
    · split
      · rw [ih, countOf_emit P _ _ (h6 _)]
        rfl
      · rw [ih]
        rfl

/-- Narration synthesis only emits stage events. -/
theorem countOf_generateScriptAudioFn (P : Event → Bool) (hP : IgnoresStageEvents P)
    (env : Env) (scriptText voiceType : String) (s : PState) :
    countOf P (generateScriptAudioFn env scriptText voiceType s).2 = countOf P s := by
  obtain ⟨h1, h2, h3, h4, h5, h6⟩ := hP
  simp only [generateScriptAudioFn, isSet]
  split
  · simp [countOf]
  · split
    · simp [countOf]
    · split
      · split
        · rw [countOf_emit P _ _ (h1 _)]
          rfl
        · rw [countOf_emit P _ _ (h2 _), countOf_emit P _ _ (h1 _)]
          rfl
      · simp [countOf]

/-- Image resolution, in either mode, only emits stage events. -/
theorem countOf_imageStage (P : Event → Bool) (hP : IgnoresStageEvents P) (env : Env)
    (prompts : List String) (aspect imageSource : String) (s : PState) :
    countOf P ((if imageSource == "ai_generated"
        then generateImagesWithStability env prompts aspect s
        else searchAndDownloadImages env prompts s)).2 = countOf P s := by
  split
  · simp only [generateImagesWithStability]
    split
    · exact countOf_searchLoop P hP env prompts 0 [] s
    · exact countOf_genLoop P hP env aspect prompts 0 [] s
  · exact countOf_searchLoop P hP env prompts 0 [] s

/-- The body of produce_complete_video either does not raise
InterruptedException, or it aborted at a checkpoint before the render: every
event in its trace is then a stage event, so any predicate that ignores stage
events counts zero new events.  In particular a cancelled body never rendered
and never created the output file. -/
theorem produceBody_sterile (P : Event → Bool) (hP : IgnoresStageEvents P) (env : Env)
    (content : ContentPackage) (voiceType aspect imageSource : String) (s : PState) :
    (∀ msg, (produceBody env content voiceType aspect imageSource s).1 ≠
        .error (.interrupted msg)) ∨
      countOf P (produceBody env content voiceType aspect imageSource s).2 =
        countOf P s := by
  simp only [produceBody, isSet]
  split
  · exact Or.inr (by simp [countOf])
  · split
    · exact Or.inr (by simp [countOf])
    · have haud := countOf_generateScriptAudioFn P hP env (flattenScript content.script)
        voiceType { s with checks := s.checks + 1 }
      split <;> rename_i heqa
      · refine Or.inr ?_
        rw [heqa] at haud
        simpa [countOf] using haud
      · refine Or.inr ?_
        rw [heqa] at haud
        simpa [countOf] using haud
      · rw [heqa] at haud
        simp only at haud
        rename_i audioFile sa
        split <;> rename_i hb2
        · refine Or.inr ?_
          simpa [countOf] using haud
        · have himg : countOf P ((if imageSource == "ai_generated"
              then generateImagesWithStability env content.imagePrompts aspect
                { sa with checks := sa.checks + 1 }
              else searchAndDownloadImages env content.imagePrompts
                { sa with checks := sa.checks + 1 })).2 = countOf P sa := by
            rw [countOf_imageStage P hP]
            simp [countOf]
          split <;> rename_i heqi
          · refine Or.inr ?_
            rw [heqi] at himg
            simp only at himg
            rw [himg, haud]
            simp [countOf]
          · rw [heqi] at himg
            simp only at himg
            rename_i imagePaths si
            split <;> rename_i hb3
            · refine Or.inr ?_
              show countOf P ⟨si.checks + 1, si.events⟩ = countOf P s
              rw [countOf_checks P si, himg, haud]
              simp [countOf]
            · have hclips := countOf_clipLoop P hP env
                (env.audioDuration / imagePaths.length)
                imagePaths { si with checks := si.checks + 1 } []
              have hclips2 : countOf P (createContentClipsFromImages env imagePaths
                  env.audioDuration (resOf aspect) { si with checks := si.checks + 1 }).2 =
                  countOf P si := by
                simp only [createContentClipsFromImages]
                split
                · simp [countOf]
                · rw [hclips]; simp [countOf]
              split <;> rename_i heqc
              · refine Or.inr ?_
                rw [heqc] at hclips2
                simp only at hclips2
                rw [hclips2, himg, haud]
                simp [countOf]
              · rw [heqc] at hclips2
                simp only at hclips2
                rename_i contentClips sc
                split
                · refine Or.inr ?_
                  rw [hclips2, himg, haud]
                  simp [countOf]
                · split
                  · refine Or.inr ?_
                    rw [hclips2, himg, haud]
                    simp [countOf]
                  · split <;> rename_i hb4
                    · refine Or.inr ?_
                      show countOf P ⟨sc.checks + 1, sc.events⟩ = countOf P s
                      rw [countOf_checks P sc, hclips2, himg, haud]
                      simp [countOf]
                    · split
                      · refine Or.inl ?_
                        intro msg h
                        simp at h
                      · refine Or.inl ?_
                        intro msg h
                        simp at h

/-- Whenever a whole produce_complete_video run reports a cancellation, its
trace contains zero events of any kind a stage cannot emit before the render:
the cancelled run never rendered, never created the output file, and returned
no reference. -/
theorem produce_interrupted_sterile (P : Event → Bool) (hP : IgnoresStageEvents P)
    (env : Env) (content : ContentPackage) (voiceType aspect imageSource : String)
    (msg : String)
    (h : (produceCompleteVideo env content voiceType aspect imageSource s0).1 =
      .error (.interrupted msg)) :
    countOf P (produceCompleteVideo env content voiceType aspect imageSource s0).2 = 0 := by
  have hst := produceBody_sterile P hP env content voiceType aspect imageSource s0
  unfold produceCompleteVideo at h ⊢
  rcases hb : produceBody env content voiceType aspect imageSource s0 with ⟨r, s'⟩
  rw [hb] at hst h
  rcases r with e | v
  · rcases e with m | m | m
    · rcases hst with hl | hr
      · exact absurd rfl (hl m)
      · simpa [countOf, s0] using hr
    · simp at h
    · simp at h
  · simp at h

/-- C2: cancellation at a stage-boundary checkpoint aborts the run before any
later stage.  Conjunct 1 (every run, either sourcing mode, any checkpoint,
loop-internal ones included): a run that reports a cancellation never rendered
and never created the output file, and returns no reference.  Conjuncts 2-5
pin down each stage-boundary checkpoint by its read index: set before start or
during narration (k at most 1) the trace is empty — the narration stage never
ran; set at or before the after-narration checkpoint (k at most 2) no
image-sourcing call was ever attempted and no render occurred; set at the
after-image-generation checkpoint (read 3 + #prompts) the run aborts there
with that checkpoint's message; set at the before-render checkpoint (read
4 + #prompts + #resolved-images) the run aborts there, so the render stage
never executes. -/
theorem c2_cancel_skips_later_stages (env : Env) (content : ContentPackage)
    (voiceType aspect imageSource : String) (k : Nat)
    (hk : env.killAfter = some k)
    (hfal : content.script.falsy = false)
    (hcl : cleanScriptText (flattenScript content.script) ≠ "")
    (hg : env.gttsAvailable = true) (ht : env.ttsFails = false)
    (hclip : ∀ p, env.clipFails p = false) :
    (∀ (env2 : Env) (content2 : ContentPackage) (v2 a2 m2 msg : String),
      (produceCompleteVideo env2 content2 v2 a2 m2 s0).1 = .error (.interrupted msg) →
      countOf Event.isRendered (produceCompleteVideo env2 content2 v2 a2 m2 s0).2 = 0 ∧
        countOf Event.isVideoFileCreated
          (produceCompleteVideo env2 content2 v2 a2 m2 s0).2 = 0) ∧
    (k ≤ 1 → ∃ m, (produceCompleteVideo env content voiceType aspect imageSource s0).1 =
        .error (.interrupted m) ∧
      (produceCompleteVideo env content voiceType aspect imageSource s0).2.events = []) ∧
    (k ≤ 2 → ∃ m, (produceCompleteVideo env content voiceType aspect imageSource s0).1 =
        .error (.interrupted m) ∧
      countOf Event.isImageSourcing
        (produceCompleteVideo env content voiceType aspect imageSource s0).2 = 0 ∧
      countOf Event.isRendered
        (produceCompleteVideo env content voiceType aspect imageSource s0).2 = 0 ∧
      countOf Event.isVideoFileCreated
        (produceCompleteVideo env content voiceType aspect imageSource s0).2 = 0) ∧
    (k = 3 + content.imagePrompts.length →
      (produceCompleteVideo env content voiceType aspect imageSource s0).1 =
        .error (.interrupted "Operation cancelled after image generation.") ∧
      countOf Event.isRendered
        (produceCompleteVideo env content voiceType aspect imageSource s0).2 = 0 ∧
      countOf Event.isVideoFileCreated
        (produceCompleteVideo env content voiceType aspect imageSource s0).2 = 0) ∧
    (k = 4 + content.imagePrompts.length +
        (imagePathsOf env content.imagePrompts imageSource).length →
      (produceCompleteVideo env content voiceType aspect imageSource s0).1 =
        .error (.interrupted "Operation cancelled before final render.") ∧
      countOf Event.isRendered
        (produceCompleteVideo env content voiceType aspect imageSource s0).2 = 0 ∧
      countOf Event.isVideoFileCreated
        (produceCompleteVideo env content voiceType aspect imageSource s0).2 = 0) := by
  have hclb : (cleanScriptText (flattenScript content.script) == "") = false := by
    simpa using hcl
  have hPr : IgnoresStageEvents Event.isRendered :=
    ⟨fun _ => rfl, fun _ => rfl, fun _ _ _ => rfl, fun _ _ => rfl, fun _ => rfl, fun _ => rfl⟩
  have hPv : IgnoresStageEvents Event.isVideoFileCreated :=
    ⟨fun _ => rfl, fun _ => rfl, fun _ _ _ => rfl, fun _ _ => rfl, fun _ => rfl, fun _ => rfl⟩
  refine ⟨?_, ?_, ?_, ?_, ?_⟩
  · intro env2 content2 v2 a2 m2 msg h
    exact ⟨produce_interrupted_sterile Event.isRendered hPr env2 content2 v2 a2 m2 msg h,
      produce_interrupted_sterile Event.isVideoFileCreated hPv env2 content2 v2 a2 m2 msg h⟩
  · intro hk1
    interval_cases k
    · exact ⟨"Operation cancelled before start.",
        by simp [produceCompleteVideo, produceBody, isSet, killAt, s0, hk],
        by simp [produceCompleteVideo, produceBody, isSet, killAt, s0, hk]⟩
    · exact ⟨"Audio generation cancelled.",
        by simp [produceCompleteVideo, produceBody, generateScriptAudioFn, isSet, killAt,
          s0, hk, hfal],
        by simp [produceCompleteVideo, produceBody, generateScriptAudioFn, isSet, killAt,
          s0, hk, hfal]⟩
  · intro hk2
    interval_cases k
    · exact ⟨"Operation cancelled before start.",
        by simp [produceCompleteVideo, produceBody, isSet, killAt, s0, hk],
        by simp [produceCompleteVideo, produceBody, isSet, killAt, s0, hk, countOf],
        by simp [produceCompleteVideo, produceBody, isSet, killAt, s0, hk, countOf],
        by simp [produceCompleteVideo, produceBody, isSet, killAt, s0, hk, countOf]⟩
    · exact ⟨"Audio generation cancelled.",
        by simp [produceCompleteVideo, produceBody, generateScriptAudioFn, isSet, killAt,
          s0, hk, hfal],
        by simp [produceCompleteVideo, produceBody, generateScriptAudioFn, isSet, killAt,
          s0, hk, hfal, countOf],
        by simp [produceCompleteVideo, produceBody, generateScriptAudioFn, isSet, killAt,
          s0, hk, hfal, countOf],
        by simp [produceCompleteVideo, produceBody, generateScriptAudioFn, isSet, killAt,
          s0, hk, hfal, countOf]⟩
    · refine ⟨"Operation cancelled after audio generation.", ?_, ?_, ?_, ?_⟩ <;>
        simp [produceCompleteVideo, produceBody, generateScriptAudioFn, isSet, killAt, emit,
          s0, hk, hfal, hclb, hg, ht, countOf, List.countP_cons, Event.isImageSourcing,
          Event.isGenApiCall, Event.isWebSearchCall, Event.isRendered,
          Event.isVideoFileCreated]
  · intro hk4
    subst hk4
    have hlt : ∀ j, j < 3 + content.imagePrompts.length → killAt env j = false := by
      intro j hj
      simp only [killAt, hk]
      exact decide_eq_false (by omega)
    have hAfter : killAt env (3 + content.imagePrompts.length) = true := by
      simp [killAt, hk]
    have himg := imageStage_spec env content.imagePrompts aspect imageSource
      ⟨3, [.ttsCall (cleanScriptText (flattenScript content.script)),
           .audioFileCreated (narrAudioFile env.timestamp)]⟩
      (3 + content.imagePrompts.length) hlt (by simp)
    simp only [beq_iff_eq] at himg
    have hres : (produceCompleteVideo env content voiceType aspect imageSource s0).1 =
        .error (.interrupted "Operation cancelled after image generation.") := by
      simp [produceCompleteVideo, produceBody, generateScriptAudioFn, isSet, emit,
        s0, hfal, hclb, hg, ht, hlt 0 (by omega), hlt 1 (by omega), hlt 2 (by omega),
        himg, hAfter]
    exact ⟨hres,
      produce_interrupted_sterile Event.isRendered hPr env content voiceType aspect
        imageSource _ hres,
      produce_interrupted_sterile Event.isVideoFileCreated hPv env content voiceType aspect
        imageSource _ hres⟩
  · intro hk5
    subst hk5
    have hlt : ∀ j, j < 4 + content.imagePrompts.length +
        (imagePathsOf env content.imagePrompts imageSource).length →
        killAt env j = false := by
      intro j hj
      simp only [killAt, hk]
      exact decide_eq_false (by omega)
    have hBefore : killAt env (4 + content.imagePrompts.length +
        (imagePathsOf env content.imagePrompts imageSource).length) = true := by
      simp [killAt, hk]
    have himg := imageStage_spec env content.imagePrompts aspect imageSource
      ⟨3, [.ttsCall (cleanScriptText (flattenScript content.script)),
           .audioFileCreated (narrAudioFile env.timestamp)]⟩
      (4 + content.imagePrompts.length +
        (imagePathsOf env content.imagePrompts imageSource).length) hlt (by simp; omega)
    simp only [beq_iff_eq] at himg
    have hclipsOf : ∀ (sd : ℚ) (l : List String),
        clipsOf env sd l = l.map (fun p => imageContentClip p sd) := by
      intro sd l
      induction l with
      | nil => simp [clipsOf]
      | cons p rest ih => simp [clipsOf, hclip p, ih]
    have hres : (produceCompleteVideo env content voiceType aspect imageSource s0).1 =
        .error (.interrupted "Operation cancelled before final render.") := by
      by_cases hpe : imagePathsOf env content.imagePrompts imageSource = []
      · have hB0 : killAt env (3 + content.imagePrompts.length + 1) = true := by
          have hm0 : (imagePathsOf env content.imagePrompts imageSource).length = 0 := by
            rw [hpe]; rfl
          rw [show 3 + content.imagePrompts.length + 1 =
              4 + content.imagePrompts.length +
              (imagePathsOf env content.imagePrompts imageSource).length from by omega]
          exact hBefore
        simp [produceCompleteVideo, produceBody, generateScriptAudioFn, isSet, emit,
          s0, hfal, hclb, hg, ht, hlt 0 (by omega), hlt 1 (by omega), hlt 2 (by omega),
          himg, hlt (3 + content.imagePrompts.length) (by omega), hpe,
          createContentClipsFromImages, concatenateVideoclips, List.isEmpty_cons, hB0]
      · have hne2 : (imagePathsOf env content.imagePrompts imageSource).isEmpty = false :=
          List.isEmpty_eq_false.mpr hpe
        have hclipL := clipLoop_spec2 env
          (env.audioDuration / (imagePathsOf env content.imagePrompts imageSource).length)
          (4 + content.imagePrompts.length +
            (imagePathsOf env content.imagePrompts imageSource).length) hlt
          (imagePathsOf env content.imagePrompts imageSource)
          ⟨3 + content.imagePrompts.length + 1,
           Event.ttsCall (cleanScriptText (flattenScript content.script)) ::
             Event.audioFileCreated (narrAudioFile env.timestamp) ::
             imageTraceOf env aspect content.imagePrompts imageSource⟩ []
          (by simp; omega)
        have hcne : (clipsOf env
            (env.audioDuration / (imagePathsOf env content.imagePrompts imageSource).length)
            (imagePathsOf env content.imagePrompts imageSource)).isEmpty = false := by
          rw [hclipsOf, isEmpty_map]
          exact hne2
        have hB1 : killAt env (3 + content.imagePrompts.length + 1 +
            (imagePathsOf env content.imagePrompts imageSource).length) = true := by
          rw [show 3 + content.imagePrompts.length + 1 +
              (imagePathsOf env content.imagePrompts imageSource).length =
              4 + content.imagePrompts.length +
              (imagePathsOf env content.imagePrompts imageSource).length from by omega]
          exact hBefore
        simp [produceCompleteVideo, produceBody, generateScriptAudioFn, isSet, emit,
          s0, hfal, hclb, hg, ht, hlt 0 (by omega), hlt 1 (by omega), hlt 2 (by omega),
          himg, hlt (3 + content.imagePrompts.length) (by omega),
          createContentClipsFromImages, hne2, hclipL, hcne, concatenateVideoclips,
          List.isEmpty_cons, hB1]
    exact ⟨hres,
      produce_interrupted_sterile Event.isRendered hPr env content voiceType aspect
        imageSource _ hres,
      produce_interrupted_sterile Event.isVideoFileCreated hPv env content voiceType aspect
        imageSource _ hres⟩

/-- Witness for c2_cancel_skips_later_stages: the kill switch set at the
checkpoint right after narration synthesis (read index 2). -/
theorem c2_cancel_skips_later_stages_witness :
    (envCancelAfterAudio.killAfter = some 2 ∧
        contentA.script.falsy = false ∧
        cleanScriptText (flattenScript contentA.script) ≠ "" ∧
        envCancelAfterAudio.gttsAvailable = true ∧ envCancelAfterAudio.ttsFails = false ∧
        (∀ p, envCancelAfterAudio.clipFails p = false)) ∧
      ((∀ (env2 : Env) (content2 : ContentPackage) (v2 a2 m2 msg : String),
        (produceCompleteVideo env2 content2 v2 a2 m2 s0).1 = .error (.interrupted msg) →
        countOf Event.isRendered (produceCompleteVideo env2 content2 v2 a2 m2 s0).2 = 0 ∧
          countOf Event.isVideoFileCreated
            (produceCompleteVideo env2 content2 v2 a2 m2 s0).2 = 0) ∧
      (2 ≤ 1 → ∃ m, (produceCompleteVideo envCancelAfterAudio contentA "female_voice" "16:9" "ai_generated" s0).1 =
          .error (.interrupted m) ∧
        (produceCompleteVideo envCancelAfterAudio contentA "female_voice" "16:9" "ai_generated" s0).2.events = []) ∧
      (2 ≤ 2 → ∃ m, (produceCompleteVideo envCancelAfterAudio contentA "female_voice" "16:9" "ai_generated" s0).1 =
          .error (.interrupted m) ∧
        countOf Event.isImageSourcing (produceCompleteVideo envCancelAfterAudio contentA "female_voice" "16:9" "ai_generated" s0).2 = 0 ∧
        countOf Event.isRendered (produceCompleteVideo envCancelAfterAudio contentA "female_voice" "16:9" "ai_generated" s0).2 = 0 ∧
        countOf Event.isVideoFileCreated (produceCompleteVideo envCancelAfterAudio contentA "female_voice" "16:9" "ai_generated" s0).2 = 0) ∧
      (2 = 3 + contentA.imagePrompts.length →
        (produceCompleteVideo envCancelAfterAudio contentA "female_voice" "16:9" "ai_generated" s0).1 =
          .error (.interrupted "Operation cancelled after image generation.") ∧
        countOf Event.isRendered (produceCompleteVideo envCancelAfterAudio contentA "female_voice" "16:9" "ai_generated" s0).2 = 0 ∧
        countOf Event.isVideoFileCreated (produceCompleteVideo envCancelAfterAudio contentA "female_voice" "16:9" "ai_generated" s0).2 = 0) ∧
      (2 = 4 + contentA.imagePrompts.length +
          (imagePathsOf envCancelAfterAudio contentA.imagePrompts "ai_generated").length →
        (produceCompleteVideo envCancelAfterAudio contentA "female_voice" "16:9" "ai_generated" s0).1 =
          .error (.interrupted "Operation cancelled before final render.") ∧
        countOf Event.isRendered (produceCompleteVideo envCancelAfterAudio contentA "female_voice" "16:9" "ai_generated" s0).2 = 0 ∧
        countOf Event.isVideoFileCreated (produceCompleteVideo envCancelAfterAudio contentA "female_voice" "16:9" "ai_generated" s0).2 = 0)) :=
  ⟨⟨rfl, rfl, by decide, rfl, rfl, fun _ => rfl⟩,
    c2_cancel_skips_later_stages envCancelAfterAudio contentA "female_voice" "16:9"
      "ai_generated" 2 rfl rfl (by decide) rfl rfl (fun _ => rfl)⟩

/-- C7: on a fully successful run - with either image-sourcing mode, including
the silent no-key fallback to web search - the rendered video is exactly intro
(3 s) ++ content segments in input order ++ outro (5 s); its duration is
exactly 3 + narrationDuration + 5 (so within any frame tolerance); the content
block is one solid clip when no image resolved, else one segment per resolved
image of duration narrationDuration / N; and the narration audio is attached
exactly once, spanning [3, 3 + narrationDuration] - only the content span. -/
theorem c7_final_video_structure (env : Env) (content : ContentPackage)
    (voiceType aspect imageSource : String)
    (hk : env.killAfter = none)
    (hfal : content.script.falsy = false)
    (hcl : cleanScriptText (flattenScript content.script) ≠ "")
    (hg : env.gttsAvailable = true)
    (ht : env.ttsFails = false)
    (hclip : ∀ p, env.clipFails p = false)
    (hrender : env.renderFails = false)
    (hmt : ∀ f ∈ musicCandidates env, f ≠ narrAudioFile env.timestamp) :
    (produceCompleteVideo env content voiceType aspect imageSource s0).1 =
        .ok (some ⟨videoOutFile env.timestamp, content⟩) ∧
      ∃ v, renderedVideos (produceCompleteVideo env content voiceType aspect
          imageSource s0).2 = [v] ∧
        v.duration = 3 + env.audioDuration + 5 ∧
        v.track = (createIntroClip env 3 (resOf aspect)).track ++
          (if (imagePathsOf env content.imagePrompts imageSource).length = 0 then
            [⟨[.solid (resOf aspect) (0, 0, 0)], env.audioDuration⟩]
          else (imagePathsOf env content.imagePrompts imageSource).map
            (fun p => ⟨[.image p], env.audioDuration /
              (imagePathsOf env content.imagePrompts imageSource).length⟩)) ++
          (createOutroClip env 5 (resOf aspect)).track ∧
        ∃ au, v.aud = some au ∧
          AudioTrack.spansOf (narrAudioFile env.timestamp) au 0 =
            [(3, env.audioDuration)] := by
  have hnkA : ∀ j, killAt env j = false := by intro j; simp [killAt, hk]
  have haud := fun s => generateScriptAudioFn_ok2 env (flattenScript content.script)
    voiceType s (hnkA s.checks) hcl hg ht
  have himgA := fun s => imageStage_spec env content.imagePrompts aspect imageSource s
    (s.checks + content.imagePrompts.length) (fun j _ => hnkA j) (le_refl _)
  have hclipsOf : ∀ (sd : ℚ) (l : List String),
      clipsOf env sd l = l.map (fun p => imageContentClip p sd) := by
    intro sd l
    induction l with
    | nil => simp [clipsOf]
    | cons p rest ih => simp [clipsOf, hclip p, ih]
  by_cases hpe : imagePathsOf env content.imagePrompts imageSource = []
  · simp only [produceCompleteVideo, produceBody, isSet, killAt, hk, s0, hfal,
      Bool.false_eq_true, if_false, haud, himgA, hpe, List.length_nil,
      createContentClipsFromImages, List.nil_append,
      List.isEmpty_nil, concatenateVideoclips, List.isEmpty_cons, hrender, emit,
      concatAudioParts, solidContentClip, setAudio, createIntroClip_aud, createOutroClip_aud,
      createIntroClip_duration, createOutroClip_duration, List.map_cons, List.map_nil,
      List.sum_cons, List.sum_nil, List.flatten_cons, List.flatten_nil, List.append_nil,
      zero_add, add_zero, renderedVideos, List.filterMap_append, List.filterMap_cons,
      getRenderedEvent, List.filterMap_nil, imageTraceOf_no_rendered, if_true]
    refine ⟨trivial, _, rfl, ?_, ?_, ?_⟩
    · rw [(addBackgroundMusic_visuals env _).2]
      ring
    · rw [(addBackgroundMusic_visuals env _).1]
      simp [List.append_assoc]
    · exact Exists.imp (fun au2 h => ⟨h.1, by
        rw [h.2]; simp [AudioTrack.spansOf, spansOfParts]⟩)
        (addBackgroundMusic_spans env _ (narrAudioFile env.timestamp) _ rfl hmt)
  · have hne2 : (imagePathsOf env content.imagePrompts imageSource).isEmpty = false :=
      List.isEmpty_eq_false.mpr hpe
    have hclipA := fun s acc => clipLoop_spec2 env
      (env.audioDuration / (imagePathsOf env content.imagePrompts imageSource).length)
      (s.checks + (imagePathsOf env content.imagePrompts imageSource).length)
      (fun j _ => hnkA j)
      (imagePathsOf env content.imagePrompts imageSource) s acc (le_refl _)
    have hcne : ∀ sd : ℚ, (clipsOf env sd
        (imagePathsOf env content.imagePrompts imageSource)).isEmpty = false := by
      intro sd
      rw [hclipsOf, isEmpty_map]
      exact hne2
    have hlenne : ((imagePathsOf env content.imagePrompts imageSource).length = 0) = False := by
      simp [List.length_eq_zero, hpe]
    simp only [produceCompleteVideo, produceBody, isSet, killAt, hk, s0, hfal,
      Bool.false_eq_true, if_false, haud, himgA,
      createContentClipsFromImages, List.nil_append, hne2, hclipA, hclipsOf,
      isEmpty_map, concatenateVideoclips, List.isEmpty_cons, hrender, emit,
      concatAudioParts_imageClips, imageClips_duration_sum, tracks_imageClips,
      concatAudioParts, solidContentClip, setAudio, createIntroClip_aud, createOutroClip_aud,
      createIntroClip_duration, createOutroClip_duration, List.map_cons, List.map_nil,
      List.sum_cons, List.sum_nil, List.flatten_cons, List.flatten_nil, List.append_nil,
      zero_add, add_zero, renderedVideos, List.filterMap_append, List.filterMap_cons,
      getRenderedEvent, List.filterMap_nil, imageTraceOf_no_rendered, clipTraceOf_no_rendered,
      hlenne, if_false]
    refine ⟨trivial, _, rfl, ?_, ?_, ?_⟩
    · rw [(addBackgroundMusic_visuals env _).2]
      have hn0 : (((imagePathsOf env content.imagePrompts imageSource).length : ℚ)) ≠ 0 := by
        exact Nat.cast_ne_zero.mpr (fun h => hpe (List.length_eq_zero.mp h))
      rw [mul_comm, div_mul_cancel₀ _ hn0]
      ring
    · rw [(addBackgroundMusic_visuals env _).1]
      simp only [List.append_assoc]
    · exact Exists.imp (fun au2 h => ⟨h.1, by
        rw [h.2]; simp [AudioTrack.spansOf, spansOfParts]⟩)
        (addBackgroundMusic_spans env _ (narrAudioFile env.timestamp) _ rfl hmt)

theorem c7_final_video_structure_witness :
    (envA.killAfter = none ∧ contentA.script.falsy = false ∧
        cleanScriptText (flattenScript contentA.script) ≠ "" ∧
        envA.gttsAvailable = true ∧ envA.ttsFails = false ∧
        (∀ p, envA.clipFails p = false) ∧ envA.renderFails = false ∧
        (∀ f ∈ musicCandidates envA, f ≠ narrAudioFile envA.timestamp)) ∧
      ((produceCompleteVideo envA contentA "female_voice" "16:9" "web_searched" s0).1 =
          .ok (some ⟨videoOutFile envA.timestamp, contentA⟩) ∧
        ∃ v, renderedVideos (produceCompleteVideo envA contentA "female_voice" "16:9"
            "web_searched" s0).2 = [v] ∧
          v.duration = 3 + envA.audioDuration + 5 ∧
          v.track = (createIntroClip envA 3 (resOf "16:9")).track ++
            (if (imagePathsOf envA contentA.imagePrompts "web_searched").length = 0 then
              [⟨[.solid (resOf "16:9") (0, 0, 0)], envA.audioDuration⟩]
            else (imagePathsOf envA contentA.imagePrompts "web_searched").map
              (fun p => ⟨[.image p], envA.audioDuration /
                (imagePathsOf envA contentA.imagePrompts "web_searched").length⟩)) ++
            (createOutroClip envA 5 (resOf "16:9")).track ∧
          ∃ au, v.aud = some au ∧
            AudioTrack.spansOf (narrAudioFile envA.timestamp) au 0 =
              [(3, envA.audioDuration)]) :=
  ⟨⟨rfl, by decide, by decide, rfl, rfl, fun _ => rfl, rfl, by decide⟩,
    c7_final_video_structure envA contentA "female_voice" "16:9" "web_searched"
      rfl (by decide) (by decide) rfl rfl (fun _ => rfl) rfl (by decide)⟩
